import Mathlib

/-!
Verification of the Deepcap retrieval-augmented video question-answering core.

This file is a shallow embedding, in Lean 4, of the TypeScript services of the
Deepcap repository that the specification describes:

* `RAGChatService` (src/openai/frame-extractor.service.ts): query
  classification (`classifyQuery`, `ASPECT_KEYWORDS`), the legacy `chat`
  pipeline and the multi-aspect `advancedChat` pipeline with its cascading
  search fallback.
* `VideoIndexService` (src/lancedb/video-index.service.ts): aspect extraction
  (`extractAspectDescriptions` and the `build*Description` helpers), timestamp
  parsing (`parseTimestamp`), and the `indexVideoAnalysis` /
  `indexAdvancedVideoAnalysis` write paths with their duplicate-source check.
* `LanceDBService` (src/lancedb/lancedb.service.ts): the table state,
  `isVideoIndexed`, `deleteVideo`, `vectorSearch` and `enhancedVectorSearch`
  (filter construction).
* `OpenAIVideoAnalyzerService` (src/openai/openai-video-analyzer.service.ts):
  `mergeAdvancedResults` and `parseTimestampToSeconds` for the parallel-batch
  merge.

Modelling conventions:

* JavaScript strings are Lean `String`s.  The JavaScript string operations the
  code uses (`toLowerCase`, `includes`, `split(':')`, `join`, `toUpperCase`)
  are re-implemented structurally over `String.data` so that they reduce in
  the kernel; `toLowerCase`/`toUpperCase` are modelled on the ASCII range, the
  only range the keyword lists and timestamps use.
* JavaScript numbers that arise here are either small integers (modelled as
  `Nat`/`Int`) or similarity scores (modelled as `Rat`).  `NaN`, which
  `parseInt`/`Number` produce on non-numeric input, is modelled by `Option`
  (`none` = NaN); the ECMAScript sort comparator rule "a NaN comparator
  result is treated as 0" is modelled explicitly.
* `Array.prototype.sort` with a comparator is a stable sort; it is modelled by
  `List.insertionSort` with the relation "comparator result ≤ 0", which is
  stable in the same sense.
* Asynchronous external collaborators (embedding provider, text-generation
  provider, the vector store's distance computation, clocks, UUID generation)
  are modelled as explicit parameters/fields supplied by the caller; the
  services' own logic is modelled exactly.
* Fresh UUIDs (`uuidv4()`) and the `metadata: JSON.stringify(...)` blob of
  aspect records are not modelled: the former is nondeterministic fresh data
  and the latter a serialization of the record's own inputs; no property here
  depends on either.  `latencyMs` fields (wall-clock time) are likewise
  omitted.
-/

namespace Deepcap

/-! ## JavaScript string primitives -/

/-- ASCII lower-casing of one character, as `String.prototype.toLowerCase`
acts on the ASCII range. -/
def lowerChar (c : Char) : Char :=
  if 'A' ≤ c ∧ c ≤ 'Z' then Char.ofNat (c.toNat + 32) else c

/-- ASCII upper-casing of one character, as `String.prototype.toUpperCase`
acts on the ASCII range. -/
def upperChar (c : Char) : Char :=
  if 'a' ≤ c ∧ c ≤ 'z' then Char.ofNat (c.toNat - 32) else c

/-- Model of `s.toLowerCase()` (ASCII range). -/
def jsToLowerCase (s : String) : String := ⟨s.data.map lowerChar⟩

/-- Model of `s.toUpperCase()` (ASCII range). -/
def jsToUpperCase (s : String) : String := ⟨s.data.map upperChar⟩

/-- Whether `pat` is a prefix of `l` (character lists). -/
def charsIsPrefix : List Char → List Char → Bool
  | [], _ => true
  | _ :: _, [] => false
  | p :: ps, c :: cs => p == c && charsIsPrefix ps cs

/-- Whether `pat` occurs as a contiguous substring of `hay`. -/
def charsContains (hay pat : List Char) : Bool :=
  match hay with
  | [] => charsIsPrefix pat []
  | _ :: rest => charsIsPrefix pat hay || charsContains rest pat

/-- Model of `hay.includes(pat)` (substring containment). -/
def jsIncludes (hay pat : String) : Bool := charsContains hay.data pat.data

/-- Split a character list on a separator character; like
`String.prototype.split` it always yields at least one (possibly empty)
component. -/
def charsSplitOn (sep : Char) : List Char → List (List Char)
  | [] => [[]]
  | c :: rest =>
    let r := charsSplitOn sep rest
    if c == sep then [] :: r
    else
      match r with
      | [] => [[c]]
      | h :: t => (c :: h) :: t

/-- Model of `s.split(sep)` for a single-character separator. -/
def jsSplit (sep : Char) (s : String) : List String :=
  (charsSplitOn sep s.data).map fun l => ⟨l⟩

/-- Model of `parts.join(sep)`. -/
def jsJoin (sep : String) : List String → String
  | [] => ""
  | [x] => x
  | x :: xs => x ++ sep ++ jsJoin sep xs

/-- Numeric value of a list of decimal digits. -/
def digitsToNat (l : List Char) : Nat :=
  l.foldl (fun acc c => acc * 10 + (c.toNat - 48)) 0

/-- Model of `parseInt(s, 10)` restricted to the inputs that occur here
(timestamp components): the longest digit prefix is parsed; if there is no
digit prefix the result is NaN (`none`).  The sign/whitespace/radix-prefix
handling of full `parseInt` is not modelled, as timestamps are digit strings. -/
def jsParseInt (s : String) : Option Nat :=
  let ds := s.data.takeWhile Char.isDigit
  if ds.isEmpty then none else some (digitsToNat ds)

/-- Model of `Number(s)` restricted to the inputs that occur here: the empty
string converts to `0`, a pure digit string to its value, anything else to
NaN (`none`). -/
def jsNumber (s : String) : Option Nat :=
  if s.data.isEmpty then some 0
  else if s.data.all Char.isDigit then some (digitsToNat s.data)
  else none

/-- JavaScript truthiness of an optional string (`undefined` and `''` are
falsy). -/
def strTruthy : Option String → Bool
  | some s => !(s == "")
  | none => false

/-- JavaScript `x || d` for an optional number `x` (`undefined` and `0` are
falsy). -/
def jsOrDefault (x : Option Nat) (d : Nat) : Nat :=
  match x with
  | some n => if n == 0 then d else n
  | none => d

/-- Comparator arithmetic `a - b` on possibly-NaN numbers: if either side is
NaN the ECMAScript sort treats the comparator result as `+0`. -/
def optNumSub (x y : Option Nat) : Int :=
  match x, y with
  | some a, some b => (a : Int) - (b : Int)
  | _, _ => 0

/-- Model of `Array.prototype.sort` with comparator
`(a, b) => key a - key b` over possibly-NaN keys: a stable sort by
"comparator result ≤ 0". -/
def jsSortByKey {α : Type} (key : α → Option Nat) (l : List α) : List α :=
  l.insertionSort fun a b => optNumSub (key a) (key b) ≤ 0

/-! ## Data model -/

/-- Aspect types for multi-modal indexing (interface `AspectType`). -/
inductive AspectType
  | people
  | objects
  | scene
  | audio
  | action
  | text
deriving DecidableEq, Repr

/-- Person metadata extracted from video (interface `PersonMetadata`);
all fields are optional strings or string lists. -/
structure PersonMetadata where
  id : Option String := none
  gender : Option String := none
  apparentAge : Option String := none
  apparentEthnicity : Option String := none
  physicalBuild : Option String := none
  clothing : Option (List String) := none
  facialExpression : Option String := none
  emotion : Option String := none
  bodyLanguage : Option String := none
  action : Option String := none
  interactionWith : Option String := none
  position : Option String := none
  distinguishingFeatures : Option (List String) := none
  role : Option String := none
  threatLevel : Option String := none
  roleConfidence : Option String := none
deriving DecidableEq, Repr

/-- Object metadata (interface `ObjectMetadata`). -/
structure ObjectMetadata where
  name : String
  color : Option String := none
  brand : Option String := none
  position : Option String := none
  state : Option String := none
  description : Option String := none
deriving DecidableEq, Repr

/-- Scene metadata (interface `SceneMetadata`). -/
structure SceneMetadata where
  locationType : Option String := none
  specificLocation : Option String := none
  lighting : Option String := none
  weather : Option String := none
  timeOfDay : Option String := none
  cameraAngle : Option String := none
  mood : Option String := none
deriving DecidableEq, Repr

/-- Speech instance in audio (interface `SpeechInstance`). -/
structure SpeechInstance where
  speaker : Option String := none
  text : String
  tone : Option String := none
  language : Option String := none
deriving DecidableEq, Repr

/-- The `audio` field of a frame (`{speech?, music?, sounds?}`). -/
structure AudioData where
  speech : Option (List SpeechInstance) := none
  music : Option String := none
  sounds : Option (List String) := none
deriving DecidableEq, Repr

/-- Text-on-screen metadata (interface `TextOnScreenMetadata`); the `type`
discriminator is kept as a string. -/
structure TextOnScreenMetadata where
  text : String
  type : String
  position : Option String := none
deriving DecidableEq, Repr

/-- One frame observation of the advanced analysis (interface
`AdvancedFrameData`). -/
structure AdvancedFrameData where
  timestamp : String
  people : Option (List PersonMetadata) := none
  objects : Option (List ObjectMetadata) := none
  scene : Option SceneMetadata := none
  audio : Option AudioData := none
  textOnScreen : Option (List TextOnScreenMetadata) := none
  actionDescription : Option String := none
deriving DecidableEq, Repr

/-- Token usage of a provider call. -/
structure TokenUsage where
  inputTokens : Nat
  outputTokens : Nat
deriving DecidableEq, Repr

/-- Advanced analysis result (interface `AdvancedVideoAnalysisResult`);
the optional `personsSummary` aggregate is irrelevant to the operations
modelled here and is not modelled. -/
structure AdvancedVideoAnalysisResult where
  summary : String
  frames : List AdvancedFrameData
  confidence : String
  thoughtSummary : Option String := none
  tokenUsage : Option TokenUsage := none
deriving DecidableEq, Repr

/-- Video metadata stored in LanceDB (interface `VideoRecord`). -/
structure VideoRecord where
  id : String
  sourceUri : String
  title : String
  duration : Option Nat := none
  fullAnalysis : String
  confidence : String
  indexedAt : String
  frameCount : Nat
  thoughtSummary : Option String := none
deriving DecidableEq, Repr

/-- Legacy frame-level record (interface `FrameRecord`); `timestampSeconds`
is a JavaScript number that can be NaN (`none`) when the timestamp is
malformed. -/
structure FrameRecord where
  id : String
  videoId : String
  timestamp : String
  timestampSeconds : Option Nat
  description : String
  vector : List Rat
deriving DecidableEq, Repr

/-- Enhanced multi-aspect record before embedding (interface
`EnhancedFrameRecordBase`); the fresh-UUID `id` and the
`metadata: JSON.stringify(...)` blob are not modelled. -/
structure EnhancedFrameRecordBase where
  videoId : String
  timestamp : String
  timestampSeconds : Option Nat
  aspectType : AspectType
  content : String
deriving DecidableEq, Repr

/-- Enhanced multi-aspect record with its vector (interface
`EnhancedFrameRecord`). -/
structure EnhancedFrameRecord where
  videoId : String
  timestamp : String
  timestampSeconds : Option Nat
  aspectType : AspectType
  content : String
  vector : List Rat
deriving DecidableEq, Repr

/-- Legacy search result: a frame record with the `_distance` score the
vector store attaches (interface `FrameSearchResult`). -/
structure FrameSearchResult extends FrameRecord where
  _distance : Option Rat
deriving DecidableEq, Repr

/-- Enhanced search result (interface `EnhancedFrameSearchResult`). -/
structure EnhancedFrameSearchResult extends EnhancedFrameRecord where
  _distance : Option Rat
deriving DecidableEq, Repr

/-- One source entry of a RAG response. -/
structure RAGSource where
  timestamp : String
  description : String
  aspectType : Option AspectType := none
  relevanceScore : Option Rat := none
deriving DecidableEq, Repr

/-- RAG chat response (interface `RAGResponse`); `latencyMs` (wall-clock
time) is not modelled. -/
structure RAGResponse where
  answer : String
  sources : List RAGSource
  tokenUsage : Option TokenUsage := none
deriving DecidableEq, Repr

/-- Query classification result: matched aspects and a confidence score. -/
structure QueryClassification where
  aspects : List AspectType
  confidence : Rat
deriving DecidableEq, Repr

/-! ## Query classifier (`RAGChatService.classifyQuery`, `ASPECT_KEYWORDS`) -/

/-- The curated keyword lists, copied verbatim from the `ASPECT_KEYWORDS`
constant of frame-extractor.service.ts. -/
def ASPECT_KEYWORDS : AspectType → List String
  | .people =>
    ["person", "people", "man", "woman", "guy", "girl", "boy", "child",
     "kid", "gender", "male", "female", "age", "old", "young", "race",
     "ethnicity", "skin", "hair", "wearing", "clothes", "clothing",
     "dressed", "outfit", "emotion", "expression", "face", "facial",
     "looking", "appearance", "who", "somebody", "someone", "anybody",
     "anyone", "he", "she", "they",
     "robber", "robbers", "thief", "thieves", "criminal", "criminals",
     "perpetrator", "perpetrators", "attacker", "attackers", "suspect",
     "suspects", "assailant", "burglar", "burglars", "victim", "victims",
     "target", "hostage", "police", "officer", "officers", "cop", "cops",
     "security", "guard", "guards", "authority", "authorities", "witness",
     "witnesses", "bystander", "bystanders", "employee", "staff", "worker",
     "customer", "customers",
     "how many", "count", "number", "total"]
  | .audio =>
    ["say", "said", "speak", "spoke", "talk", "talking", "voice", "hear",
     "sound", "noise", "music", "song", "dialogue", "conversation", "word",
     "listen", "audio", "speech", "mention", "tell", "told", "ask",
     "asked", "shout", "whisper", "sing", "language", "accent", "tone"]
  | .objects =>
    ["object", "thing", "item", "product", "brand", "device", "tool",
     "car", "vehicle", "phone", "computer", "table", "chair", "furniture",
     "food", "drink", "bottle", "bag", "box", "book", "what is",
     "what are"]
  | .scene =>
    ["where", "location", "place", "setting", "environment", "background",
     "indoor", "outdoor", "room", "building", "street", "city", "nature",
     "light", "lighting", "dark", "bright", "weather", "time of day",
     "atmosphere", "mood", "camera", "shot", "angle"]
  | .text =>
    ["text", "read", "written", "write", "sign", "title", "subtitle",
     "caption", "label", "display", "screen", "show", "letter", "word"]
  | .action =>
    ["do", "doing", "happen", "happening", "action", "event", "activity",
     "move", "moving", "walk", "run", "sit", "stand", "pick", "put",
     "open", "close", "start", "stop", "begin", "end", "then", "next"]

/-- The entries of the `ASPECT_KEYWORDS` object literal in its insertion
order (the order `Object.entries` iterates). -/
def aspectEntries : List (AspectType × List String) :=
  [(.people, ASPECT_KEYWORDS .people),
   (.audio, ASPECT_KEYWORDS .audio),
   (.objects, ASPECT_KEYWORDS .objects),
   (.scene, ASPECT_KEYWORDS .scene),
   (.text, ASPECT_KEYWORDS .text),
   (.action, ASPECT_KEYWORDS .action)]

/-- The six aspect types in the order of the classifier's fallback list. -/
def allAspectTypes : List AspectType :=
  [.people, .objects, .scene, .audio, .action, .text]

/-- Number of keyword-list entries that occur as substrings of the
(lower-cased) query: `keywords.filter((kw) => queryLower.includes(kw)).length`. -/
def keywordMatches (queryLower : String) (keywords : List String) : Nat :=
  (keywords.filter fun kw => jsIncludes queryLower kw).length

/-- The `for (const [aspect, keywords] of Object.entries(ASPECT_KEYWORDS))`
loop of `classifyQuery`: accumulates the matched aspects in entry order and
the total match count. -/
def classifyLoop (queryLower : String) :
    List (AspectType × List String) → List AspectType × Nat
  | [] => ([], 0)
  | (aspect, keywords) :: rest =>
    let m := keywordMatches queryLower keywords
    let r := classifyLoop queryLower rest
    if 0 < m then (aspect :: r.1, r.2 + m) else r

/-- Model of `RAGChatService.classifyQuery`. -/
def classifyQuery (query : String) : QueryClassification :=
  let queryLower := jsToLowerCase query
  let r := classifyLoop queryLower aspectEntries
  if r.1 = [] then
    { aspects := allAspectTypes, confidence := 3 / 10 }
  else
    { aspects := r.1, confidence := min ((r.2 : Rat) / 3) 1 }

/-- Match count of one aspect type for a query, stated as the specification
states it (lower-case the query, count keyword-list entries occurring as
substrings). -/
def aspectMatchCount (query : String) (a : AspectType) : Nat :=
  keywordMatches (jsToLowerCase query) (ASPECT_KEYWORDS a)

/-- Total match count across all aspects. -/
def totalMatchCount (query : String) : Nat :=
  (allAspectTypes.map (aspectMatchCount query)).sum

/-- Reference classifier, written from the specification's words: return
exactly the aspect types with match count ≥ 1 and confidence
`min(total/3, 1)`; if zero aspect types match, return all six aspect types
with confidence 0.3. -/
def classifyQuerySpec (query : String) : QueryClassification :=
  let matched := allAspectTypes.filter fun a => 0 < aspectMatchCount query a
  if matched = [] then
    { aspects := allAspectTypes, confidence := 3 / 10 }
  else
    { aspects := matched, confidence := min ((totalMatchCount query : Rat) / 3) 1 }

/-! ## Timestamp parsers -/

/-- Model of `OpenAIVideoAnalyzerService.parseTimestampToSeconds`: split on
`':'`; exactly two components are parsed as `MM:SS`; every other shape
returns `0`.  A non-numeric component makes `parseInt` return NaN, which
propagates (`none`). -/
def parseTimestampToSeconds (timestamp : String) : Option Nat :=
  let parts := jsSplit ':' timestamp
  if parts.length = 2 then
    match jsParseInt (parts.headD ""), jsParseInt (parts.getD 1 "") with
    | some m, some s => some (m * 60 + s)
    | _, _ => none
  else some 0

/-- Model of `VideoIndexService.parseTimestamp`: split on `':'`, convert the
components with `Number`, and accept both `MM:SS` and `HH:MM:SS`; every
other shape returns `0`. -/
def parseTimestamp (timestamp : String) : Option Nat :=
  let parts := (jsSplit ':' timestamp).map jsNumber
  if parts.length = 2 then
    match parts.headD none, parts.getD 1 none with
    | some m, some s => some (m * 60 + s)
    | _, _ => none
  else if parts.length = 3 then
    match parts.headD none, parts.getD 1 none, parts.getD 2 none with
    | some h, some m, some s => some (h * 3600 + m * 60 + s)
    | _, _, _ => none
  else some 0

/-! ## Batch merge (`OpenAIVideoAnalyzerService.mergeAdvancedResults`) -/

/-- The order used for confidence reduction:
`const confidenceOrder = ['Low', 'Medium', 'High']`. -/
def confidenceOrder : List String := ["Low", "Medium", "High"]

/-- Model of `Array.prototype.indexOf`: index of the first occurrence, `-1`
when absent. -/
def jsIndexOf (l : List String) (s : String) : Int :=
  match l with
  | [] => -1
  | x :: xs =>
    if x == s then 0
    else
      let r := jsIndexOf xs s
      if r == -1 then -1 else r + 1

/-- One step of the confidence reduction:
`confidenceOrder.indexOf(current) < confidenceOrder.indexOf(lowest) ? current : lowest`. -/
def lowerConfidence (lowest current : String) : String :=
  if jsIndexOf confidenceOrder current < jsIndexOf confidenceOrder lowest then
    current
  else lowest

/-- Model of `mergeAdvancedResults`: concatenate the frames of all batches,
sort them by `parseTimestampToSeconds` (a stable comparator sort), join the
non-placeholder summaries, reduce confidences to the lowest, and sum token
usage. -/
def mergeAdvancedResults (results : List AdvancedVideoAnalysisResult) :
    AdvancedVideoAnalysisResult :=
  let allFrames := results.flatMap (·.frames)
  let totalInputTokens :=
    (results.filterMap (·.tokenUsage)).foldl (fun acc u => acc + u.inputTokens) 0
  let totalOutputTokens :=
    (results.filterMap (·.tokenUsage)).foldl (fun acc u => acc + u.outputTokens) 0
  let sortedFrames :=
    jsSortByKey (fun f => parseTimestampToSeconds f.timestamp) allFrames
  let summaries :=
    (results.map (·.summary)).filter fun s =>
      !(s == "") && !(s == "No summary provided")
  let combinedSummary :=
    if summaries.length > 0 then jsJoin " " summaries
    else "Video analysis completed using parallel batch processing."
  let lowestConfidence :=
    (results.map (·.confidence)).foldl lowerConfidence "High"
  { summary := combinedSummary
    frames := sortedFrames
    confidence := lowestConfidence
    tokenUsage :=
      if 0 < totalInputTokens then
        some { inputTokens := totalInputTokens, outputTokens := totalOutputTokens }
      else none }

/-! ## Aspect extractor (`VideoIndexService`) -/

/-- Conditionally pushed part: `if (x) parts.push(f(x))` for an optional
string field. -/
def optPart (x : Option String) (f : String → String) : List String :=
  match x with
  | some v => if v = "" then [] else [f v]
  | none => []

/-- Model of `VideoIndexService.buildPeopleDescription`. -/
def buildPeopleDescription (timestamp : String) (people : List PersonMetadata) :
    String :=
  let descriptions := (people.zip (List.range people.length)).map
      fun (person, index) =>
    let roleParts : List String :=
      match person.role with
      | some r => if r = "" ∨ r = "unknown" then []
                  else ["[" ++ jsToUpperCase r ++ "]"]
      | none => []
    let threatParts : List String :=
      match person.threatLevel with
      | some t => if t = "" ∨ t = "none" then []
                  else ["(threat: " ++ t ++ ")"]
      | none => []
    let parts : List String :=
      roleParts ++
      threatParts ++
      optPart person.gender id ++
      optPart person.apparentAge id ++
      (optPart person.apparentEthnicity fun e => "appears " ++ e) ++
      optPart person.physicalBuild id ++
      (match person.distinguishingFeatures with
       | some fs => if fs.length > 0 then ["with " ++ jsJoin ", " fs] else []
       | none => []) ++
      (match person.clothing with
       | some cs => if cs.length > 0 then ["wearing " ++ jsJoin ", " cs] else []
       | none => []) ++
      (optPart person.facialExpression fun e => "expression: " ++ e) ++
      (optPart person.emotion fun e => "emotion: " ++ e) ++
      (optPart person.bodyLanguage fun b => "body language: " ++ b) ++
      (optPart person.action fun a => "action: " ++ a) ++
      (optPart person.interactionWith fun i => "interacting with: " ++ i) ++
      (optPart person.position fun p => "positioned " ++ p)
    let personId :=
      match person.id with
      | some i => if i = "" then "Person " ++ toString (index + 1) else i
      | none => "Person " ++ toString (index + 1)
    personId ++ ": " ++ jsJoin ", " parts
  "At " ++ timestamp ++ ": " ++ jsJoin ". " descriptions

/-- Model of `VideoIndexService.buildObjectsDescription`. -/
def buildObjectsDescription (timestamp : String) (objects : List ObjectMetadata) :
    String :=
  let descriptions := objects.map fun obj =>
    let parts : List String :=
      [obj.name] ++
      optPart obj.color id ++
      (optPart obj.brand fun b => "(" ++ b ++ ")") ++
      optPart obj.state id ++
      (optPart obj.description fun d => "- " ++ d)
    jsJoin " " parts
  "At " ++ timestamp ++ ": Objects visible - " ++ jsJoin ", " descriptions

/-- Model of `VideoIndexService.buildSceneDescription`.  Note that it always
returns a non-empty string, even when every scene field is absent. -/
def buildSceneDescription (timestamp : String) (scene : SceneMetadata) : String :=
  let parts : List String :=
    optPart scene.locationType id ++
    optPart scene.specificLocation id ++
    (optPart scene.lighting fun l => l ++ " lighting") ++
    optPart scene.weather id ++
    optPart scene.timeOfDay id ++
    (optPart scene.cameraAngle fun c => c ++ " shot") ++
    (optPart scene.mood fun m => m ++ " atmosphere")
  "At " ++ timestamp ++ ": Scene - " ++ jsJoin ", " parts

/-- Model of `VideoIndexService.buildAudioDescription`; returns the empty
string (suppressing the record) when there is no speech, music or sound. -/
def buildAudioDescription (timestamp : String) (audio : AudioData) : String :=
  let speechParts : List String :=
    match audio.speech with
    | some sp =>
      if sp.length > 0 then
        [jsJoin ". " (sp.map fun s =>
          let speaker := match s.speaker with
            | some v => if v = "" then "Someone" else v
            | none => "Someone"
          let tone := match s.tone with
            | some t => if t = "" then "" else " (" ++ t ++ " tone)"
            | none => ""
          speaker ++ " says: \"" ++ s.text ++ "\"" ++ tone)]
      else []
    | none => []
  let musicParts : List String :=
    optPart audio.music fun m => "Music: " ++ m
  let soundParts : List String :=
    match audio.sounds with
    | some ss => if ss.length > 0 then ["Sounds: " ++ jsJoin ", " ss] else []
    | none => []
  let parts := speechParts ++ musicParts ++ soundParts
  if parts.length = 0 then ""
  else "At " ++ timestamp ++ ": " ++ jsJoin ". " parts

/-- Model of `VideoIndexService.buildTextDescription`. -/
def buildTextDescription (timestamp : String)
    (textItems : List TextOnScreenMetadata) : String :=
  let descriptions := textItems.map fun item =>
    let position := match item.position with
      | some p => if p = "" then "" else " (" ++ p ++ ")"
      | none => ""
    item.type ++ ": \"" ++ item.text ++ "\"" ++ position
  "At " ++ timestamp ++ ": Text on screen - " ++ jsJoin ", " descriptions

/-- The record a frame contributes for one aspect type. -/
def mkAspectRecord (videoId : String) (frame : AdvancedFrameData)
    (aspect : AspectType) (content : String) : EnhancedFrameRecordBase :=
  { videoId := videoId
    timestamp := frame.timestamp
    timestampSeconds := parseTimestamp frame.timestamp
    aspectType := aspect
    content := content }

/-- The PEOPLE records of one frame:
`if (frame.people && frame.people.length > 0)` guarding a push of the built
description when it is truthy. -/
def peopleRecords (videoId : String) (frame : AdvancedFrameData) :
    List EnhancedFrameRecordBase :=
  match frame.people with
  | some ps =>
    if ps.length > 0 then
      let d := buildPeopleDescription frame.timestamp ps
      if d = "" then [] else [mkAspectRecord videoId frame .people d]
    else []
  | none => []

/-- The OBJECTS records of one frame. -/
def objectRecords (videoId : String) (frame : AdvancedFrameData) :
    List EnhancedFrameRecordBase :=
  match frame.objects with
  | some os =>
    if os.length > 0 then
      let d := buildObjectsDescription frame.timestamp os
      if d = "" then [] else [mkAspectRecord videoId frame .objects d]
    else []
  | none => []

/-- The SCENE records of one frame: `if (frame.scene)` with no emptiness
check on the scene object itself. -/
def sceneRecords (videoId : String) (frame : AdvancedFrameData) :
    List EnhancedFrameRecordBase :=
  match frame.scene with
  | some sc =>
    let d := buildSceneDescription frame.timestamp sc
    if d = "" then [] else [mkAspectRecord videoId frame .scene d]
  | none => []

/-- The AUDIO records of one frame: suppressed when the built description is
the empty string. -/
def audioRecords (videoId : String) (frame : AdvancedFrameData) :
    List EnhancedFrameRecordBase :=
  match frame.audio with
  | some au =>
    let d := buildAudioDescription frame.timestamp au
    if d = "" then [] else [mkAspectRecord videoId frame .audio d]
  | none => []

/-- The TEXT ON SCREEN records of one frame. -/
def textRecords (videoId : String) (frame : AdvancedFrameData) :
    List EnhancedFrameRecordBase :=
  match frame.textOnScreen with
  | some ts =>
    if ts.length > 0 then
      let d := buildTextDescription frame.timestamp ts
      if d = "" then [] else [mkAspectRecord videoId frame .text d]
    else []
  | none => []

/-- The ACTION records of one frame: `if (frame.actionDescription)` guarding
a push of the timestamp-prefixed raw description. -/
def actionRecords (videoId : String) (frame : AdvancedFrameData) :
    List EnhancedFrameRecordBase :=
  match frame.actionDescription with
  | some a =>
    if a = "" then []
    else [mkAspectRecord videoId frame .action
            ("At " ++ frame.timestamp ++ ": " ++ a)]
  | none => []

/-- The records extracted from one frame, in the push order of the
`extractAspectDescriptions` loop body. -/
def extractFrameRecords (videoId : String) (frame : AdvancedFrameData) :
    List EnhancedFrameRecordBase :=
  peopleRecords videoId frame ++ objectRecords videoId frame ++
    sceneRecords videoId frame ++ audioRecords videoId frame ++
    textRecords videoId frame ++ actionRecords videoId frame

/-- Model of `VideoIndexService.extractAspectDescriptions`: the per-frame
records, concatenated over the frames in order. -/
def extractAspectDescriptions (videoId : String)
    (frames : List AdvancedFrameData) : List EnhancedFrameRecordBase :=
  frames.flatMap (extractFrameRecords videoId)

/-! ## Vector store (`LanceDBService`) -/

/-- The three LanceDB tables; `none` models a table that has not been
created yet (created lazily on first insert). -/
structure Store where
  videos : Option (List VideoRecord)
  frames : Option (List FrameRecord)
  enhancedFrames : Option (List EnhancedFrameRecord)
deriving Repr

/-- Model of `LanceDBService.isVideoIndexed`: query the videos table for the
sourceUri; a missing table means not indexed. -/
def isVideoIndexed (st : Store) (sourceUri : String) : Bool :=
  match st.videos with
  | none => false
  | some vs => vs.any fun v => v.sourceUri == sourceUri

/-- Model of `LanceDBService.insertVideo`: append (creating the table on
first insert). -/
def insertVideo (st : Store) (video : VideoRecord) : Store :=
  { st with videos := some ((st.videos.getD []) ++ [video]) }

/-- Model of `LanceDBService.insertFrames`. -/
def insertFrames (st : Store) (newFrames : List FrameRecord) : Store :=
  if newFrames.length = 0 then st
  else { st with frames := some ((st.frames.getD []) ++ newFrames) }

/-- Model of `LanceDBService.insertEnhancedFrames`. -/
def insertEnhancedFrames (st : Store) (newFrames : List EnhancedFrameRecord) :
    Store :=
  if newFrames.length = 0 then st
  else
    { st with enhancedFrames := some ((st.enhancedFrames.getD []) ++ newFrames) }

/-- Model of `LanceDBService.getVideo`: first videos-table row with the id. -/
def getVideo (st : Store) (videoId : String) : Option VideoRecord :=
  match st.videos with
  | none => none
  | some vs => vs.find? fun v => v.id == videoId

/-- Model of `LanceDBService.getVideoFrames`: the legacy frames of a video,
sorted by `timestampSeconds`. -/
def getVideoFrames (st : Store) (videoId : String) : List FrameRecord :=
  match st.frames with
  | none => []
  | some fs =>
    jsSortByKey (·.timestampSeconds) (fs.filter fun f => f.videoId == videoId)

/-- Model of `LanceDBService.getEnhancedVideoFrames`: the enhanced frames of
a video, optionally restricted to one aspect type, sorted by
`timestampSeconds`. -/
def getEnhancedVideoFrames (st : Store) (videoId : String)
    (aspectType : Option AspectType) : List EnhancedFrameRecord :=
  match st.enhancedFrames with
  | none => []
  | some fs =>
    let byVideo := fs.filter fun f => f.videoId == videoId
    let filtered :=
      match aspectType with
      | some a => byVideo.filter fun f => f.aspectType == a
      | none => byVideo
    jsSortByKey (·.timestampSeconds) filtered

/-- Model of `LanceDBService.deleteVideo`: delete the legacy frames, the
enhanced frames, and the video record with the given id (skipping any table
that does not exist). -/
def deleteVideo (st : Store) (videoId : String) : Store :=
  { videos := st.videos.map fun vs => vs.filter fun v => !(v.id == videoId)
    frames := st.frames.map fun fs => fs.filter fun f => !(f.videoId == videoId)
    enhancedFrames :=
      st.enhancedFrames.map fun fs => fs.filter fun f => !(f.videoId == videoId) }

/-- The where-clause `enhancedVectorSearch` builds, as a predicate on rows:
a `videoId = '...'` condition is added when the videoId option is truthy, an
OR of `aspectType = '...'` conditions when the aspectTypes option is present
and non-empty, and the added conditions are ANDed.  (The SQL string the code
builds is modelled structurally, assuming well-formed identifiers.) -/
def enhancedSearchPred (videoId : Option String)
    (aspectTypes : Option (List AspectType)) (r : EnhancedFrameRecord) : Bool :=
  let videoCond : Option Bool :=
    match videoId with
    | some v => if v = "" then none else some (r.videoId == v)
    | none => none
  let aspectCond : Option Bool :=
    match aspectTypes with
    | some ts =>
      if 0 < ts.length then some (ts.any fun t => r.aspectType == t) else none
    | none => none
  videoCond.getD true && aspectCond.getD true

/-- Stable ranking by a rational distance (ascending), modelling the vector
store's ranking of rows by cosine distance for a given query vector. -/
def rankByDistance {α : Type} (dist : α → Rat) (l : List α) : List α :=
  l.insertionSort fun a b => dist a ≤ dist b

/-- Model of `LanceDBService.enhancedVectorSearch`: over the enhanced-frames
table (empty result when the table does not exist), keep the rows passing
the built where-clause, rank them by distance, truncate to `limit`, and
attach each row's distance.  The distance function (the store's cosine
distance against the query vector) is a parameter. -/
def enhancedVectorSearch (st : Store) (dist : EnhancedFrameRecord → Rat)
    (videoId : Option String) (aspectTypes : Option (List AspectType))
    (limit : Nat) : List EnhancedFrameSearchResult :=
  match st.enhancedFrames with
  | none => []
  | some rows =>
    let kept := rows.filter (enhancedSearchPred videoId aspectTypes)
    ((rankByDistance dist kept).take limit).map fun r =>
      { toEnhancedFrameRecord := r, _distance := some (dist r) }

/-- Model of `LanceDBService.vectorSearch` (legacy frames): same shape with
only the optional videoId filter. -/
def vectorSearch (st : Store) (dist : FrameRecord → Rat)
    (videoId : Option String) (limit : Nat) : List FrameSearchResult :=
  match st.frames with
  | none => []
  | some rows =>
    let kept := rows.filter fun f =>
      match videoId with
      | some v => if v = "" then true else f.videoId == v
      | none => true
    ((rankByDistance dist kept).take limit).map fun r =>
      { toFrameRecord := r, _distance := some (dist r) }

/-! ## Indexing write paths (`VideoIndexService`) -/

/-- The fields of the Gemini `VideoAnalysisResult` that the indexing paths
read (`analysis`, `confidence`, `thoughtSummary`). -/
structure VideoAnalysisResult where
  analysis : String
  confidence : String
  thoughtSummary : Option String := none
deriving DecidableEq, Repr

/-- Legacy frame description input (interface `FrameDescription`). -/
structure FrameDescription where
  timestamp : String
  description : String
deriving DecidableEq, Repr

/-- Result of an indexing operation (interface `IndexResult`);
`indexingTimeMs` (wall-clock time) is not modelled. -/
structure IndexResult where
  videoId : String
  frameCount : Nat
  success : Bool
  error : Option String := none
deriving DecidableEq, Repr

/-- The terminal HTTP errors the indexing paths throw. -/
inductive IndexError
  | conflict
  | badRequest
deriving DecidableEq, Repr

/-- External inputs of an indexing operation: the generated video UUID, the
fresh per-record UUIDs, the embedding provider, and the clock. -/
structure IndexExt where
  videoId : String
  freshId : Nat → String
  embedBatch : List String → List (List Rat)
  now : String

/-- Model of `VideoIndexService.indexVideoAnalysis`: the duplicate-source
check, the empty-input check, then embedding, record construction and the
two inserts.  Returns the resulting store alongside the outcome. -/
def indexVideoAnalysis (st : Store) (ext : IndexExt) (sourceUri title : String)
    (analysis : VideoAnalysisResult) (frameDescriptions : List FrameDescription)
    (duration : Option Nat) : Except IndexError IndexResult × Store :=
  if isVideoIndexed st sourceUri then (.error .conflict, st)
  else if frameDescriptions.length = 0 then (.error .badRequest, st)
  else
    let descriptions := frameDescriptions.map (·.description)
    let embeddings := ext.embedBatch descriptions
    let videoRecord : VideoRecord :=
      { id := ext.videoId
        sourceUri := sourceUri
        title := title
        duration := duration
        fullAnalysis := analysis.analysis
        confidence := analysis.confidence
        indexedAt := ext.now
        frameCount := frameDescriptions.length
        thoughtSummary := analysis.thoughtSummary }
    let frameRecords : List FrameRecord :=
      (frameDescriptions.zip (List.range frameDescriptions.length)).map
        fun (frame, index) =>
          { id := ext.freshId index
            videoId := ext.videoId
            timestamp := frame.timestamp
            timestampSeconds := parseTimestamp frame.timestamp
            description := frame.description
            vector := embeddings.getD index [] }
    let st := insertVideo st videoRecord
    let st := insertFrames st frameRecords
    (.ok { videoId := ext.videoId
           frameCount := frameDescriptions.length
           success := true }, st)

/-- Model of `VideoIndexService.indexAdvancedVideoAnalysis`: the same checks
followed by aspect extraction, embedding, and the two inserts. -/
def indexAdvancedVideoAnalysis (st : Store) (ext : IndexExt)
    (sourceUri title : String) (analysis : AdvancedVideoAnalysisResult)
    (duration : Option Nat) : Except IndexError IndexResult × Store :=
  if isVideoIndexed st sourceUri then (.error .conflict, st)
  else if analysis.frames.length = 0 then (.error .badRequest, st)
  else
    let aspectRecords := extractAspectDescriptions ext.videoId analysis.frames
    let contents := aspectRecords.map (·.content)
    let embeddings := ext.embedBatch contents
    let enhancedFrameRecords : List EnhancedFrameRecord :=
      (aspectRecords.zip (List.range aspectRecords.length)).map
        fun (record, index) =>
          { videoId := record.videoId
            timestamp := record.timestamp
            timestampSeconds := record.timestampSeconds
            aspectType := record.aspectType
            content := record.content
            vector := embeddings.getD index [] }
    let videoRecord : VideoRecord :=
      { id := ext.videoId
        sourceUri := sourceUri
        title := title
        duration := duration
        fullAnalysis := analysis.summary
        confidence := analysis.confidence
        indexedAt := ext.now
        frameCount := enhancedFrameRecords.length
        thoughtSummary := analysis.thoughtSummary }
    let st := insertVideo st videoRecord
    let st := insertEnhancedFrames st enhancedFrameRecords
    (.ok { videoId := ext.videoId
           frameCount := enhancedFrameRecords.length
           success := true }, st)

/-! ## RAG chat (`RAGChatService`) -/

/-- The system instructions are long prose prompts; their text is not
load-bearing for any property here and is abbreviated to a marker. -/
def RAG_SYSTEM_INSTRUCTION : String := "RAG_SYSTEM_INSTRUCTION"

/-- Marker for the advanced system instruction prompt text. -/
def ADVANCED_RAG_SYSTEM_INSTRUCTION : String := "ADVANCED_RAG_SYSTEM_INSTRUCTION"

/-- The fixed no-context answer of both chat pipelines. -/
def noContentAnswer : String :=
  "No relevant content found in the indexed video for this query."

/-- Options of a text-generation call. -/
structure GenOptions where
  qualityLevel : String
  maxOutputTokens : Nat
deriving DecidableEq, Repr

/-- Result of a text-generation call. -/
structure GenResult where
  text : String
  tokenUsage : Option TokenUsage := none

/-- The external collaborators of `RAGChatService` and its configuration:
the store tables, the embedding provider, the store's distance computation
for a query vector, the text-generation provider, the number formatting used
for relevance annotations (`toFixed`), and `RAG_TOP_K`. -/
structure ChatEnv where
  defaultTopK : Nat
  store : Store
  embed : String → List Rat
  enhancedDist : List Rat → EnhancedFrameRecord → Rat
  frameDist : List Rat → FrameRecord → Rat
  generate : String → String → GenOptions → GenResult
  toFixed : Nat → Rat → String

/-- Observable calls the chat pipelines make on the store and the
text-generation provider, in order. -/
inductive ChatEvent
  | enhancedSearchCall (videoId : Option String)
      (aspectTypes : Option (List AspectType)) (limit : Nat)
  | legacySearchCall (videoId : Option String) (limit : Nat)
  | synthesisCall (systemInstruction : String) (prompt : String)
deriving DecidableEq, Repr

/-- Number of text-generation invocations in a trace. -/
def synthesisCount (events : List ChatEvent) : Nat :=
  (events.filter fun e =>
    match e with
    | .synthesisCall _ _ => true
    | _ => false).length

/-- Errors thrown by the chat pipelines. -/
inductive ChatError
  | notFound
deriving DecidableEq, Repr

/-- The relevance score attached to a returned source:
`f._distance ? 1 - f._distance : undefined` (`0` is falsy). -/
def relevanceScoreOf (distance : Option Rat) : Option Rat :=
  match distance with
  | some d => if d = 0 then none else some (1 - d)
  | none => none

/-- The source entry built from a legacy search result. -/
def legacySource (f : FrameSearchResult) : RAGSource :=
  { timestamp := f.timestamp
    description := f.description
    aspectType := none
    relevanceScore := relevanceScoreOf f._distance }

/-- The source entry built from an enhanced search result. -/
def enhancedSource (f : EnhancedFrameSearchResult) : RAGSource :=
  { timestamp := f.timestamp
    description := f.content
    aspectType := some f.aspectType
    relevanceScore := relevanceScoreOf f._distance }

/-- Model of `buildContext` (legacy): the header plus one block per frame
with its relevance annotation. -/
def buildContext (env : ChatEnv) (frames : List FrameSearchResult)
    (videoTitle : String) : String :=
  let header := "Video: \"" ++ videoTitle ++ "\"\n\nRelevant frame descriptions:\n"
  let frameContext := jsJoin "\n\n"
    ((frames.zip (List.range frames.length)).map fun (f, i) =>
      let score := match f._distance with
        | some d =>
          if d = 0 then ""
          else "(relevance: " ++ env.toFixed 3 (1 - d) ++ ")"
        | none => ""
      "[" ++ toString (i + 1) ++ "] At " ++ f.timestamp ++ " " ++ score ++
        ":\n" ++ f.description)
  header ++ frameContext

/-- One labeled section of the enhanced context: the frames of one aspect
type, sorted by `timestampSeconds`, rendered as bullet lines. -/
def enhancedContextSection (env : ChatEnv)
    (frames : List EnhancedFrameSearchResult) (aspect : AspectType)
    (heading : String) : List String :=
  let group := frames.filter fun f => f.aspectType == aspect
  if 0 < group.length then
    let content := jsJoin "\n"
      ((jsSortByKey (·.timestampSeconds) group).map fun f =>
        let score := match f._distance with
          | some d =>
            if d = 0 then ""
            else " (relevance: " ++ env.toFixed 2 (1 - d) ++ ")"
          | none => ""
        "• " ++ f.content ++ score)
    [heading ++ "\n" ++ content]
  else []

/-- Model of `buildEnhancedContext`: group by aspect type and render the six
labeled sections in the fixed order. -/
def buildEnhancedContext (env : ChatEnv)
    (frames : List EnhancedFrameSearchResult) (videoTitle : String) : String :=
  let header := "Video: \"" ++ videoTitle ++
    "\"\n\nComprehensive video content (organized by aspect):\n\n"
  let sections :=
    enhancedContextSection env frames .people "## PEOPLE IN VIDEO" ++
    enhancedContextSection env frames .audio "## AUDIO & SPEECH" ++
    enhancedContextSection env frames .objects "## OBJECTS VISIBLE" ++
    enhancedContextSection env frames .scene "## SCENE & SETTING" ++
    enhancedContextSection env frames .text "## TEXT ON SCREEN" ++
    enhancedContextSection env frames .action "## ACTIONS & EVENTS"
  header ++ jsJoin "\n\n" sections

/-- Model of `synthesizeAnswer` (legacy prompt); returns the answer together
with the provider-call event. -/
def synthesizeAnswer (env : ChatEnv) (query context : String) :
    GenResult × ChatEvent :=
  let prompt :=
    "Based on the following video content context, answer the user's question.\n\n"
      ++ context ++ "\n\n---\n\nUser Question: " ++ query ++ "\n\nAnswer:"
  let result := env.generate RAG_SYSTEM_INSTRUCTION prompt
    { qualityLevel := "low", maxOutputTokens := 1024 }
  ({ text := if result.text = "" then "Unable to generate response"
             else result.text
     tokenUsage := result.tokenUsage },
   .synthesisCall RAG_SYSTEM_INSTRUCTION prompt)

/-- Model of `synthesizeAdvancedAnswer`. -/
def synthesizeAdvancedAnswer (env : ChatEnv) (query context : String) :
    GenResult × ChatEvent :=
  let prompt :=
    "Based on the following comprehensive video content analysis, answer the user's question in detail.\n\n"
      ++ context ++ "\n\n---\n\nUser Question: " ++ query ++
      "\n\nProvide a detailed answer using ONLY the information from the context above. Include specific timestamps when relevant.\n\nAnswer:"
  let result := env.generate ADVANCED_RAG_SYSTEM_INSTRUCTION prompt
    { qualityLevel := "medium", maxOutputTokens := 2048 }
  ({ text := if result.text = "" then "Unable to generate response"
             else result.text
     tokenUsage := result.tokenUsage },
   .synthesisCall ADVANCED_RAG_SYSTEM_INSTRUCTION prompt)

/-- Model of `RAGChatService.chat` (legacy pipeline), returning the response
together with the trace of store/provider calls. -/
def chat (env : ChatEnv) (videoId query : String) (topK : Option Nat) :
    Except ChatError (RAGResponse × List ChatEvent) :=
  let k := jsOrDefault topK env.defaultTopK
  match getVideo env.store videoId with
  | none => .error .notFound
  | some video =>
    let queryVector := env.embed query
    let e1 := ChatEvent.legacySearchCall (some videoId) k
    let relevantFrames :=
      vectorSearch env.store (env.frameDist queryVector) (some videoId) k
    if relevantFrames.length = 0 then
      .ok ({ answer := noContentAnswer, sources := [], tokenUsage := none },
           [e1])
    else
      let context := buildContext env relevantFrames video.title
      let (answer, e2) := synthesizeAnswer env query context
      .ok ({ answer := answer.text
             sources := relevantFrames.map legacySource
             tokenUsage := answer.tokenUsage },
           [e1, e2])

/-- Model of `RAGChatService.advancedChat`: classify, search with the aspect
filter, retry without the aspect filter on empty, fall back to the legacy
frame search, and only synthesize when some search returned results. -/
def advancedChat (env : ChatEnv) (videoId query : String) (topK : Option Nat) :
    Except ChatError (RAGResponse × List ChatEvent) :=
  let k := jsOrDefault topK (env.defaultTopK * 2)
  match getVideo env.store videoId with
  | none => .error .notFound
  | some video =>
    let classification := classifyQuery query
    let queryVector := env.embed query
    let e1 := ChatEvent.enhancedSearchCall (some videoId)
      (some classification.aspects) k
    let relevantFrames := enhancedVectorSearch env.store
      (env.enhancedDist queryVector) (some videoId) (some classification.aspects) k
    let (finalFrames, searchEvents) :=
      if relevantFrames.length = 0 then
        (enhancedVectorSearch env.store (env.enhancedDist queryVector)
           (some videoId) none k,
         [e1, ChatEvent.enhancedSearchCall (some videoId) none k])
      else (relevantFrames, [e1])
    if finalFrames.length = 0 then
      let e3 := ChatEvent.legacySearchCall (some videoId) k
      let legacyFrames :=
        vectorSearch env.store (env.frameDist queryVector) (some videoId) k
      if legacyFrames.length = 0 then
        .ok ({ answer := noContentAnswer, sources := [], tokenUsage := none },
             searchEvents ++ [e3])
      else
        let context := buildContext env legacyFrames video.title
        let (answer, e4) := synthesizeAnswer env query context
        .ok ({ answer := answer.text
               sources := legacyFrames.map legacySource
               tokenUsage := answer.tokenUsage },
             searchEvents ++ [e3, e4])
    else
      let context := buildEnhancedContext env finalFrames video.title
      let (answer, e4) := synthesizeAdvancedAnswer env query context
      .ok ({ answer := answer.text
             sources := finalFrames.map enhancedSource
             tokenUsage := answer.tokenUsage },
           searchEvents ++ [e4])

/-! ## Lemmas about the query classifier -/

theorem mem_classifyLoop_fst (ql : String) (a : AspectType) :
    ∀ entries : List (AspectType × List String),
      a ∈ (classifyLoop ql entries).1 ↔
        ∃ kws, (a, kws) ∈ entries ∧ 0 < keywordMatches ql kws := by
  intro entries
  induction entries with
  | nil => simp [classifyLoop]
  | cons e rest ih =>
    obtain ⟨ea, ekws⟩ := e
    simp only [classifyLoop, List.mem_cons, Prod.mk.injEq]
    by_cases h : 0 < keywordMatches ql ekws
    · rw [if_pos h]
      simp only [List.mem_cons, ih]
      constructor
      · rintro (rfl | ⟨kws, hk, hp⟩)
        · exact ⟨ekws, Or.inl ⟨rfl, rfl⟩, h⟩
        · exact ⟨kws, Or.inr hk, hp⟩
      · rintro ⟨kws, ⟨rfl, rfl⟩ | hk, hp⟩
        · exact Or.inl rfl
        · exact Or.inr ⟨kws, hk, hp⟩
    · rw [if_neg h]
      simp only [ih]
      constructor
      · rintro ⟨kws, hk, hp⟩
        exact ⟨kws, Or.inr hk, hp⟩
      · rintro ⟨kws, ⟨rfl, rfl⟩ | hk, hp⟩
        · exact absurd hp h
        · exact ⟨kws, hk, hp⟩

theorem classifyLoop_snd (ql : String) :
    ∀ entries : List (AspectType × List String),
      (classifyLoop ql entries).2 =
        (entries.map fun e => keywordMatches ql e.2).sum := by
  intro entries
  induction entries with
  | nil => simp [classifyLoop]
  | cons e rest ih =>
    obtain ⟨ea, ekws⟩ := e
    simp only [classifyLoop, List.map_cons, List.sum_cons]
    by_cases h : 0 < keywordMatches ql ekws
    · rw [if_pos h]
      simp only [ih]
      omega
    · rw [if_neg h]
      simp only [ih]
      omega

theorem mem_classifyLoop_aspectEntries (q : String) (a : AspectType) :
    a ∈ (classifyLoop (jsToLowerCase q) aspectEntries).1 ↔
      0 < aspectMatchCount q a := by
  rw [mem_classifyLoop_fst]
  constructor
  · rintro ⟨kws, hk, hp⟩
    cases a <;> simp_all [aspectEntries, aspectMatchCount]
  · intro hp
    refine ⟨ASPECT_KEYWORDS a, ?_, hp⟩
    cases a <;> simp [aspectEntries]

theorem classifyLoop_snd_aspectEntries (q : String) :
    (classifyLoop (jsToLowerCase q) aspectEntries).2 = totalMatchCount q := by
  rw [classifyLoop_snd]
  simp only [aspectEntries, totalMatchCount, allAspectTypes, aspectMatchCount,
    List.map_cons, List.map_nil, List.sum_cons, List.sum_nil]
  omega

theorem classifyLoop_fst_nil_iff (q : String) :
    (classifyLoop (jsToLowerCase q) aspectEntries).1 = [] ↔
      (allAspectTypes.filter fun a => 0 < aspectMatchCount q a) = [] := by
  rw [List.eq_nil_iff_forall_not_mem, List.eq_nil_iff_forall_not_mem]
  constructor
  · intro h a ha
    have := List.mem_filter.mp ha
    exact h a ((mem_classifyLoop_aspectEntries q a).mpr (by simpa using this.2))
  · intro h a ha
    have hp := (mem_classifyLoop_aspectEntries q a).mp ha
    refine h a (List.mem_filter.mpr ⟨?_, by simpa using hp⟩)
    cases a <;> simp [allAspectTypes]

/-- C2: `classifyQuery` agrees with the reference definition built from the
specification (same aspect set — exactly the aspect types with keyword match
count ≥ 1, or all six with confidence 0.3 when none match — and same
confidence `min(total/3, 1)`), its aspect set is never empty, the query
"How many robbers were there?" classifies to a set containing `people` with
positive confidence, and "asdkj qwer" classifies to all six aspect types
with confidence exactly 0.3. -/
theorem classifyQuery_meets_spec :
    (∀ q a, a ∈ (classifyQuery q).aspects ↔ a ∈ (classifyQuerySpec q).aspects) ∧
    (∀ q, (classifyQuery q).confidence = (classifyQuerySpec q).confidence) ∧
    (∀ q, (classifyQuery q).aspects ≠ []) ∧
    (AspectType.people ∈ (classifyQuery "How many robbers were there?").aspects ∧
      0 < (classifyQuery "How many robbers were there?").confidence) ∧
    classifyQuery "asdkj qwer" =
      { aspects := allAspectTypes, confidence := 3 / 10 } := by
  have hmem : ∀ q a, a ∈ (classifyQuery q).aspects ↔
      a ∈ (classifyQuerySpec q).aspects := by
    intro q a
    by_cases h : (classifyLoop (jsToLowerCase q) aspectEntries).1 = []
    · have h' := (classifyLoop_fst_nil_iff q).mp h
      simp [classifyQuery, classifyQuerySpec, h, h']
    · have h' : ¬ (allAspectTypes.filter fun a => 0 < aspectMatchCount q a) = [] :=
        fun hc => h ((classifyLoop_fst_nil_iff q).mpr hc)
      simp only [classifyQuery, classifyQuerySpec, if_neg h, if_neg h']
      rw [mem_classifyLoop_aspectEntries, List.mem_filter]
      constructor
      · intro hp
        refine ⟨?_, by simpa using hp⟩
        cases a <;> simp [allAspectTypes]
      · intro hp
        simpa using hp.2
  refine ⟨hmem, ?_, ?_, ?_, ?_⟩
  · intro q
    by_cases h : (classifyLoop (jsToLowerCase q) aspectEntries).1 = []
    · have h' := (classifyLoop_fst_nil_iff q).mp h
      simp [classifyQuery, classifyQuerySpec, h, h']
    · have h' : ¬ (allAspectTypes.filter fun a => 0 < aspectMatchCount q a) = [] :=
        fun hc => h ((classifyLoop_fst_nil_iff q).mpr hc)
      simp only [classifyQuery, classifyQuerySpec, if_neg h, if_neg h']
      rw [classifyLoop_snd_aspectEntries]
  · intro q
    by_cases h : (classifyLoop (jsToLowerCase q) aspectEntries).1 = []
    · simp [classifyQuery, h, allAspectTypes]
    · simp [classifyQuery, h]
  · have h : classifyLoop (jsToLowerCase "How many robbers were there?")
        aspectEntries = ([.people], 5) := by decide
    constructor
    · simp [classifyQuery, h]
    · simp only [classifyQuery, h]
      norm_num
  · have h : classifyLoop (jsToLowerCase "asdkj qwer") aspectEntries =
        ([], 0) := by decide
    simp [classifyQuery, h]

/-! ## Lemmas about the comparator sort -/

theorem jsSortByKey_perm {α : Type} (key : α → Option Nat) (l : List α) :
    (jsSortByKey key l).Perm l :=
  List.perm_insertionSort _ l

theorem pairwise_orderedInsert_key {α : Type} (key : α → Option Nat) (a : α)
    (s : List α) (ha : (key a).isSome) (hs : ∀ x ∈ s, (key x).isSome)
    (hp : s.Pairwise fun x y => (key x).getD 0 ≤ (key y).getD 0) :
    (List.orderedInsert (fun x y => optNumSub (key x) (key y) ≤ 0) a s).Pairwise
      fun x y => (key x).getD 0 ≤ (key y).getD 0 := by
  induction s with
  | nil => simp
  | cons b bs ih =>
    obtain ⟨ka, hka⟩ := Option.isSome_iff_exists.mp ha
    obtain ⟨kb, hkb⟩ := Option.isSome_iff_exists.mp (hs b (by simp))
    have hb := (List.pairwise_cons.mp hp).1
    have hbs := (List.pairwise_cons.mp hp).2
    rw [List.orderedInsert]
    by_cases hr : optNumSub (key a) (key b) ≤ 0
    · rw [if_pos hr]
      have hab : (key a).getD 0 ≤ (key b).getD 0 := by
        simp only [optNumSub, hka, hkb, Option.getD_some] at hr ⊢
        omega
      refine List.pairwise_cons.mpr ⟨?_, hp⟩
      intro x hx
      rcases List.mem_cons.mp hx with rfl | hx
      · exact hab
      · exact le_trans hab (hb x hx)
    · rw [if_neg hr]
      have hba : (key b).getD 0 ≤ (key a).getD 0 := by
        simp only [optNumSub, hka, hkb, Option.getD_some] at hr ⊢
        omega
      refine List.pairwise_cons.mpr ⟨?_, ih (fun x hx => hs x (by simp [hx])) hbs⟩
      intro x hx
      rcases (List.mem_orderedInsert _).mp hx with rfl | hx
      · exact hba
      · exact hb x hx

theorem jsSortByKey_pairwise {α : Type} (key : α → Option Nat) (l : List α)
    (h : ∀ x ∈ l, (key x).isSome) :
    (jsSortByKey key l).Pairwise
      fun x y => (key x).getD 0 ≤ (key y).getD 0 := by
  induction l with
  | nil => simp [jsSortByKey]
  | cons x xs ih =>
    have hx : (key x).isSome := h x (by simp)
    have hxs : ∀ y ∈ xs, (key y).isSome := fun y hy => h y (by simp [hy])
    have hmem : ∀ y ∈ jsSortByKey key xs, (key y).isSome := fun y hy =>
      hxs y ((jsSortByKey_perm key xs).mem_iff.mp hy)
    simpa [jsSortByKey, List.insertionSort] using
      pairwise_orderedInsert_key key x (jsSortByKey key xs) hx hmem (ih hxs)

/-! ## Lemmas about the confidence reduction -/

theorem foldl_lowerConfidence_mem (l : List String) :
    ∀ acc, (l.foldl lowerConfidence acc) ∈ acc :: l := by
  induction l with
  | nil => intro acc; simp
  | cons c rest ih =>
    intro acc
    have step : lowerConfidence acc c = acc ∨ lowerConfidence acc c = c := by
      unfold lowerConfidence
      by_cases h : jsIndexOf confidenceOrder c < jsIndexOf confidenceOrder acc <;>
        simp [h]
    rw [List.foldl_cons]
    rcases step with h | h <;>
      rcases List.mem_cons.mp (ih (lowerConfidence acc c)) with hm | hm <;>
        rw [h] at hm <;> simp [h, hm]

theorem jsIndexOf_lowerConfidence (acc c : String) :
    jsIndexOf confidenceOrder (lowerConfidence acc c) ≤
      jsIndexOf confidenceOrder acc ∧
    jsIndexOf confidenceOrder (lowerConfidence acc c) ≤
      jsIndexOf confidenceOrder c := by
  unfold lowerConfidence
  by_cases h : jsIndexOf confidenceOrder c < jsIndexOf confidenceOrder acc <;>
    simp [h] <;> omega

theorem foldl_lowerConfidence_le (l : List String) :
    ∀ acc, jsIndexOf confidenceOrder (l.foldl lowerConfidence acc) ≤
        jsIndexOf confidenceOrder acc ∧
      ∀ c ∈ l, jsIndexOf confidenceOrder (l.foldl lowerConfidence acc) ≤
        jsIndexOf confidenceOrder c := by
  induction l with
  | nil => intro acc; simp
  | cons c rest ih =>
    intro acc
    have hstep := jsIndexOf_lowerConfidence acc c
    have hr := ih (lowerConfidence acc c)
    refine ⟨le_trans hr.1 hstep.1, ?_⟩
    intro d hd
    rcases List.mem_cons.mp hd with rfl | hd
    · exact le_trans hr.1 hstep.2
    · exact hr.2 d hd

/-- C3: the batch merge concatenates all per-batch frame lists (the merged
frame list is a permutation of the concatenation) and sorts the merged list
by parsed timestamp-in-seconds ascending (whenever the timestamps parse,
which all provider timestamps do), regardless of batch order; merging
batches `[00:10, 00:00]` and `[00:05]` yields `[00:00, 00:05, 00:10]`. -/
theorem mergeAdvancedResults_sorts_frames :
    (∀ results : List AdvancedVideoAnalysisResult,
      ((mergeAdvancedResults results).frames).Perm
        (results.flatMap (·.frames))) ∧
    (∀ results : List AdvancedVideoAnalysisResult,
      (∀ f ∈ results.flatMap (·.frames),
          (parseTimestampToSeconds f.timestamp).isSome) →
      ((mergeAdvancedResults results).frames).Pairwise fun a b =>
        (parseTimestampToSeconds a.timestamp).getD 0 ≤
          (parseTimestampToSeconds b.timestamp).getD 0) ∧
    (mergeAdvancedResults
        [{ summary := "batch one",
           frames := [{ timestamp := "00:10" }, { timestamp := "00:00" }],
           confidence := "High" },
         { summary := "batch two",
           frames := [{ timestamp := "00:05" }],
           confidence := "High" }]).frames.map (·.timestamp) =
      ["00:00", "00:05", "00:10"] := by
  refine ⟨?_, ?_, by decide⟩
  · intro results
    exact jsSortByKey_perm _ _
  · intro results h
    exact jsSortByKey_pairwise _ _ h

/-- Witness for C3 at a concrete two-batch input: the hypothesis (all
timestamps parse) holds and the merged list is pairwise ordered by parsed
seconds. -/
theorem mergeAdvancedResults_sorts_frames_witness :
    ((mergeAdvancedResults
        [{ summary := "batch one",
           frames := [{ timestamp := "00:10" }, { timestamp := "00:00" }],
           confidence := "High" },
         { summary := "batch two",
           frames := [{ timestamp := "00:05" }],
           confidence := "High" }]).frames).Pairwise fun a b =>
      (parseTimestampToSeconds a.timestamp).getD 0 ≤
        (parseTimestampToSeconds b.timestamp).getD 0 :=
  mergeAdvancedResults_sorts_frames.2.1
    [{ summary := "batch one",
       frames := [{ timestamp := "00:10" }, { timestamp := "00:00" }],
       confidence := "High" },
     { summary := "batch two",
       frames := [{ timestamp := "00:05" }],
       confidence := "High" }]
    (by decide)

/-- C4: for a non-empty batch list whose confidences are drawn from
{Low, Medium, High}, the merged confidence is one of the batch confidences
and is minimal among them under the Low < Medium < High ordering (the
position in `confidenceOrder`); merging [High, Low, Medium] yields Low. -/
theorem mergeAdvancedResults_confidence_lowest :
    (∀ results : List AdvancedVideoAnalysisResult,
      results ≠ [] →
      (∀ r ∈ results, r.confidence ∈ confidenceOrder) →
      ((mergeAdvancedResults results).confidence ∈
          results.map (·.confidence) ∧
        ∀ r ∈ results,
          jsIndexOf confidenceOrder (mergeAdvancedResults results).confidence ≤
            jsIndexOf confidenceOrder r.confidence)) ∧
    (mergeAdvancedResults
        [{ summary := "b1", frames := [], confidence := "High" },
         { summary := "b2", frames := [], confidence := "Low" },
         { summary := "b3", frames := [], confidence := "Medium" }]).confidence =
      "Low" := by
  refine ⟨?_, by decide⟩
  intro results hne hvalid
  have hconf : (mergeAdvancedResults results).confidence =
      (results.map (·.confidence)).foldl lowerConfidence "High" := rfl
  have hmem := foldl_lowerConfidence_mem (results.map (·.confidence)) "High"
  have hle := foldl_lowerConfidence_le (results.map (·.confidence)) "High"
  have hmin : ∀ r ∈ results,
      jsIndexOf confidenceOrder (mergeAdvancedResults results).confidence ≤
        jsIndexOf confidenceOrder r.confidence := by
    intro r hr
    rw [hconf]
    exact hle.2 r.confidence (List.mem_map.mpr ⟨r, hr, rfl⟩)
  refine ⟨?_, hmin⟩
  rcases List.mem_cons.mp (hconf ▸ hmem) with hm | hm
  · obtain ⟨r0, hr0⟩ := List.exists_mem_of_ne_nil results hne
    have h2 : jsIndexOf confidenceOrder (mergeAdvancedResults results).confidence
        = 2 := by
      rw [hm]; decide
    have hup := hmin r0 hr0
    rw [h2] at hup
    have hr0c := hvalid r0 hr0
    simp only [confidenceOrder, List.mem_cons, List.not_mem_nil, or_false] at hr0c
    have hr0high : r0.confidence = "High" := by
      rcases hr0c with h | h | h
      · rw [h] at hup; exact absurd hup (by decide)
      · rw [h] at hup; exact absurd hup (by decide)
      · exact h
    rw [hm, ← hr0high]
    exact List.mem_map.mpr ⟨r0, hr0, rfl⟩
  · exact hm

/-- Witness for C4 at a concrete three-batch input (confidences High, Low,
Medium): the merged confidence is one of the batch confidences and minimal
among them. -/
theorem mergeAdvancedResults_confidence_lowest_witness :
    (mergeAdvancedResults
        [{ summary := "b1", frames := [], confidence := "High" },
         { summary := "b2", frames := [], confidence := "Low" },
         { summary := "b3", frames := [], confidence := "Medium" }]).confidence ∈
        ([{ summary := "b1", frames := [], confidence := "High" },
          { summary := "b2", frames := [], confidence := "Low" },
          { summary := "b3", frames := [], confidence := "Medium" }] :
          List AdvancedVideoAnalysisResult).map (·.confidence) :=
  (mergeAdvancedResults_confidence_lowest.1
    [{ summary := "b1", frames := [], confidence := "High" },
     { summary := "b2", frames := [], confidence := "Low" },
     { summary := "b3", frames := [], confidence := "Medium" }]
    (by decide) (by decide)).1

/-- C10: the timestamp parser used for batch-merge ordering
(`parseTimestampToSeconds`) returns minutes·60+seconds only for strings of
exactly two colon-separated components and returns 0 for every other shape —
including the HH:MM:SS form that the indexing pipeline's `parseTimestamp`
accepts (`"01:02:03"` parses to 0 here but to 3723 there) — so a
three-component frame is ordered in the merged list as if it occurred at
second 0 (here `"01:02:03"`, actually second 3723, sorts before
`"00:10"`). -/
theorem parseTimestampToSeconds_two_components_only :
    (∀ s : String, (jsSplit ':' s).length ≠ 2 →
      parseTimestampToSeconds s = some 0) ∧
    (∀ (s m ss : String) (a b : Nat), jsSplit ':' s = [m, ss] →
      jsParseInt m = some a → jsParseInt ss = some b →
      parseTimestampToSeconds s = some (a * 60 + b)) ∧
    parseTimestampToSeconds "01:02:03" = some 0 ∧
    parseTimestamp "01:02:03" = some 3723 ∧
    (mergeAdvancedResults
        [{ summary := "batch",
           frames := [{ timestamp := "00:10" }, { timestamp := "01:02:03" }],
           confidence := "High" }]).frames.map (·.timestamp) =
      ["01:02:03", "00:10"] := by
  refine ⟨?_, ?_, by decide, by decide, by decide⟩
  · intro s h
    unfold parseTimestampToSeconds
    rw [if_neg h]
  · intro s m ss a b hsplit h1 h2
    unfold parseTimestampToSeconds
    rw [hsplit]
    simp [h1, h2]

/-- Witness for C10: the two hypothesis-bearing parts applied at concrete
inputs — a three-component timestamp parses to 0 and a two-component
timestamp to minutes·60+seconds. -/
theorem parseTimestampToSeconds_two_components_only_witness :
    parseTimestampToSeconds "01:02:03" = some 0 ∧
    parseTimestampToSeconds "02:15" = some 135 :=
  ⟨parseTimestampToSeconds_two_components_only.1 "01:02:03" (by decide),
   parseTimestampToSeconds_two_components_only.2.1 "02:15" "02" "15" 2 15
     (by decide) (by decide) (by decide)⟩

/-! ## Lemmas about the aspect extractor -/

theorem at_prefixed_ne_empty (t u v : String) : "At " ++ t ++ u ++ v ≠ "" := by
  intro hc
  have hd := congrArg String.data hc
  rw [String.data_append, String.data_append, String.data_append] at hd
  have h1 : ("At " : String).data ≠ [] := by decide
  have h2 : ("" : String).data = [] := rfl
  rw [h2] at hd
  exact h1
    (List.append_eq_nil.mp
      (List.append_eq_nil.mp (List.append_eq_nil.mp hd).1).1).1

theorem buildPeopleDescription_ne_empty (ts : String)
    (ps : List PersonMetadata) : buildPeopleDescription ts ps ≠ "" :=
  at_prefixed_ne_empty _ _ _

theorem buildObjectsDescription_ne_empty (ts : String)
    (os : List ObjectMetadata) : buildObjectsDescription ts os ≠ "" :=
  at_prefixed_ne_empty _ _ _

theorem buildSceneDescription_ne_empty (ts : String) (sc : SceneMetadata) :
    buildSceneDescription ts sc ≠ "" :=
  at_prefixed_ne_empty _ _ _

theorem buildTextDescription_ne_empty (ts : String)
    (items : List TextOnScreenMetadata) : buildTextDescription ts items ≠ "" :=
  at_prefixed_ne_empty _ _ _

/-- An audio field has content when it has a non-empty speech list, a truthy
music string, or a non-empty sounds list — the condition under which the
extractor stores an audio record. -/
def audioHasContent (au : AudioData) : Prop :=
  (∃ sp, au.speech = some sp ∧ sp ≠ []) ∨
  (∃ m, au.music = some m ∧ m ≠ "") ∨
  (∃ ss, au.sounds = some ss ∧ ss ≠ [])

theorem buildAudioDescription_empty_iff (ts : String) (au : AudioData) :
    buildAudioDescription ts au = "" ↔ ¬ audioHasContent au := by
  rcases hsp : au.speech with _ | sp <;>
    rcases hm : au.music with _ | m <;>
      rcases hsd : au.sounds with _ | ss
  all_goals try rcases sp with _ | ⟨s0, sps⟩
  all_goals try rcases ss with _ | ⟨ss0, sss⟩
  all_goals try by_cases hme : m = ""
  all_goals
    simp [buildAudioDescription, audioHasContent, optPart, beq_iff_eq,
      hsp, hm, hsd, at_prefixed_ne_empty, *]

theorem mem_peopleRecords (vid : String) (frame : AdvancedFrameData) :
    ∀ r ∈ peopleRecords vid frame, r.aspectType = .people ∧ r.content ≠ "" := by
  intro r hr
  rcases hp : frame.people with _ | ps <;>
    simp only [peopleRecords, hp] at hr
  · simp at hr
  · split at hr
    · split at hr
      · simp at hr
      · simp at hr
        rw [hr]
        exact ⟨rfl, by assumption⟩
    · simp at hr

theorem peopleRecords_ne_nil_iff (vid : String) (frame : AdvancedFrameData) :
    peopleRecords vid frame ≠ [] ↔ ∃ ps, frame.people = some ps ∧ ps ≠ [] := by
  rcases hp : frame.people with _ | ps <;> simp [peopleRecords, hp]
  rcases ps with _ | ⟨p, ps'⟩ <;>
    simp [buildPeopleDescription_ne_empty]

theorem mem_objectRecords (vid : String) (frame : AdvancedFrameData) :
    ∀ r ∈ objectRecords vid frame, r.aspectType = .objects ∧ r.content ≠ "" := by
  intro r hr
  rcases hp : frame.objects with _ | os <;>
    simp only [objectRecords, hp] at hr
  · simp at hr
  · split at hr
    · split at hr
      · simp at hr
      · simp at hr
        rw [hr]
        exact ⟨rfl, by assumption⟩
    · simp at hr

theorem objectRecords_ne_nil_iff (vid : String) (frame : AdvancedFrameData) :
    objectRecords vid frame ≠ [] ↔ ∃ os, frame.objects = some os ∧ os ≠ [] := by
  rcases hp : frame.objects with _ | os <;> simp [objectRecords, hp]
  rcases os with _ | ⟨o, os'⟩ <;>
    simp [buildObjectsDescription_ne_empty]

theorem mem_sceneRecords (vid : String) (frame : AdvancedFrameData) :
    ∀ r ∈ sceneRecords vid frame, r.aspectType = .scene ∧ r.content ≠ "" := by
  intro r hr
  rcases hp : frame.scene with _ | sc <;>
    simp only [sceneRecords, hp] at hr
  · simp at hr
  · split at hr
    · simp at hr
    · simp at hr
      rw [hr]
      exact ⟨rfl, by assumption⟩

theorem sceneRecords_ne_nil_iff (vid : String) (frame : AdvancedFrameData) :
    sceneRecords vid frame ≠ [] ↔ frame.scene.isSome := by
  rcases hp : frame.scene with _ | sc <;>
    simp [sceneRecords, hp, buildSceneDescription_ne_empty]

theorem mem_audioRecords (vid : String) (frame : AdvancedFrameData) :
    ∀ r ∈ audioRecords vid frame, r.aspectType = .audio ∧ r.content ≠ "" := by
  intro r hr
  rcases hp : frame.audio with _ | au <;>
    simp only [audioRecords, hp] at hr
  · simp at hr
  · split at hr
    · simp at hr
    · simp at hr
      rw [hr]
      exact ⟨rfl, by assumption⟩

theorem audioRecords_ne_nil_iff (vid : String) (frame : AdvancedFrameData) :
    audioRecords vid frame ≠ [] ↔
      ∃ au, frame.audio = some au ∧ audioHasContent au := by
  rcases hp : frame.audio with _ | au <;> simp [audioRecords, hp]
  by_cases hba : buildAudioDescription frame.timestamp au = ""
  · simp [hba, (buildAudioDescription_empty_iff frame.timestamp au).mp hba]
  · have hc : audioHasContent au :=
      not_not.mp fun h =>
        hba ((buildAudioDescription_empty_iff frame.timestamp au).mpr h)
    simp [hba, hc]

theorem mem_textRecords (vid : String) (frame : AdvancedFrameData) :
    ∀ r ∈ textRecords vid frame, r.aspectType = .text ∧ r.content ≠ "" := by
  intro r hr
  rcases hp : frame.textOnScreen with _ | ts <;>
    simp only [textRecords, hp] at hr
  · simp at hr
  · split at hr
    · split at hr
      · simp at hr
      · simp at hr
        rw [hr]
        exact ⟨rfl, by assumption⟩
    · simp at hr

theorem textRecords_ne_nil_iff (vid : String) (frame : AdvancedFrameData) :
    textRecords vid frame ≠ [] ↔
      ∃ ts, frame.textOnScreen = some ts ∧ ts ≠ [] := by
  rcases hp : frame.textOnScreen with _ | ts <;> simp [textRecords, hp]
  rcases ts with _ | ⟨t, ts'⟩ <;>
    simp [buildTextDescription_ne_empty]

theorem mem_actionRecords (vid : String) (frame : AdvancedFrameData) :
    ∀ r ∈ actionRecords vid frame, r.aspectType = .action ∧ r.content ≠ "" := by
  intro r hr
  rcases hp : frame.actionDescription with _ | a <;>
    simp only [actionRecords, hp] at hr
  · simp at hr
  · split at hr
    · simp at hr
    · simp at hr
      rw [hr]
      exact ⟨rfl, at_prefixed_ne_empty _ _ _⟩

theorem actionRecords_ne_nil_iff (vid : String) (frame : AdvancedFrameData) :
    actionRecords vid frame ≠ [] ↔
      ∃ a, frame.actionDescription = some a ∧ a ≠ "" := by
  rcases hp : frame.actionDescription with _ | a <;> simp [actionRecords, hp]

/-- C5 (amended): the Aspect Extractor never emits empty-string content, and
it produces a record exactly for: a non-empty people list, a non-empty
objects list, a *present* scene object (even when all of its fields are
absent — the scene category has no emptiness check, so a present-but-empty
scene yields a placeholder record), an audio field with speech, music or
sounds, a non-empty text-on-screen list, and a non-empty action description.
A frame whose only present field is a non-empty actionDescription yields
exactly one AspectRecord, of aspect type action, whose content is the raw
action description prefixed with `At <timestamp>:`. -/
theorem extractAspectDescriptions_category_presence :
    (∀ (vid : String) (frame : AdvancedFrameData),
      ∀ r ∈ extractFrameRecords vid frame, r.content ≠ "") ∧
    (∀ (vid : String) (frame : AdvancedFrameData),
      ((∃ r ∈ extractFrameRecords vid frame, r.aspectType = .people) ↔
        ∃ ps, frame.people = some ps ∧ ps ≠ []) ∧
      ((∃ r ∈ extractFrameRecords vid frame, r.aspectType = .objects) ↔
        ∃ os, frame.objects = some os ∧ os ≠ []) ∧
      ((∃ r ∈ extractFrameRecords vid frame, r.aspectType = .scene) ↔
        frame.scene.isSome) ∧
      ((∃ r ∈ extractFrameRecords vid frame, r.aspectType = .audio) ↔
        ∃ au, frame.audio = some au ∧ audioHasContent au) ∧
      ((∃ r ∈ extractFrameRecords vid frame, r.aspectType = .text) ↔
        ∃ ts, frame.textOnScreen = some ts ∧ ts ≠ []) ∧
      ((∃ r ∈ extractFrameRecords vid frame, r.aspectType = .action) ↔
        ∃ a, frame.actionDescription = some a ∧ a ≠ "")) ∧
    (∀ (vid ts a : String), a ≠ "" →
      extractAspectDescriptions vid
          [{ timestamp := ts, actionDescription := some a }] =
        [{ videoId := vid, timestamp := ts,
           timestampSeconds := parseTimestamp ts, aspectType := .action,
           content := "At " ++ ts ++ ": " ++ a }]) := by
  have hsplit : ∀ (vid : String) (frame : AdvancedFrameData) r,
      r ∈ extractFrameRecords vid frame ↔
        r ∈ peopleRecords vid frame ∨ r ∈ objectRecords vid frame ∨
        r ∈ sceneRecords vid frame ∨ r ∈ audioRecords vid frame ∨
        r ∈ textRecords vid frame ∨ r ∈ actionRecords vid frame := by
    intro vid frame r
    simp [extractFrameRecords, List.mem_append, or_assoc]
  refine ⟨?_, ?_, ?_⟩
  · intro vid frame r hr
    rcases (hsplit vid frame r).mp hr with h | h | h | h | h | h
    · exact (mem_peopleRecords vid frame r h).2
    · exact (mem_objectRecords vid frame r h).2
    · exact (mem_sceneRecords vid frame r h).2
    · exact (mem_audioRecords vid frame r h).2
    · exact (mem_textRecords vid frame r h).2
    · exact (mem_actionRecords vid frame r h).2
  · intro vid frame
    refine ⟨?_, ?_, ?_, ?_, ?_, ?_⟩
    · constructor
      · rintro ⟨r, hr, hasp⟩
        rcases (hsplit vid frame r).mp hr with h | h | h | h | h | h
        · exact (peopleRecords_ne_nil_iff vid frame).mp (List.ne_nil_of_mem h)
        · simp [(mem_objectRecords vid frame r h).1] at hasp
        · simp [(mem_sceneRecords vid frame r h).1] at hasp
        · simp [(mem_audioRecords vid frame r h).1] at hasp
        · simp [(mem_textRecords vid frame r h).1] at hasp
        · simp [(mem_actionRecords vid frame r h).1] at hasp
      · intro hc
        obtain ⟨r, hr⟩ := List.exists_mem_of_ne_nil _
          ((peopleRecords_ne_nil_iff vid frame).mpr hc)
        exact ⟨r, (hsplit vid frame r).mpr (Or.inl hr),
          (mem_peopleRecords vid frame r hr).1⟩
    · constructor
      · rintro ⟨r, hr, hasp⟩
        rcases (hsplit vid frame r).mp hr with h | h | h | h | h | h
        · simp [(mem_peopleRecords vid frame r h).1] at hasp
        · exact (objectRecords_ne_nil_iff vid frame).mp (List.ne_nil_of_mem h)
        · simp [(mem_sceneRecords vid frame r h).1] at hasp
        · simp [(mem_audioRecords vid frame r h).1] at hasp
        · simp [(mem_textRecords vid frame r h).1] at hasp
        · simp [(mem_actionRecords vid frame r h).1] at hasp
      · intro hc
        obtain ⟨r, hr⟩ := List.exists_mem_of_ne_nil _
          ((objectRecords_ne_nil_iff vid frame).mpr hc)
        exact ⟨r, (hsplit vid frame r).mpr (Or.inr (Or.inl hr)),
          (mem_objectRecords vid frame r hr).1⟩
    · constructor
      · rintro ⟨r, hr, hasp⟩
        rcases (hsplit vid frame r).mp hr with h | h | h | h | h | h
        · simp [(mem_peopleRecords vid frame r h).1] at hasp
        · simp [(mem_objectRecords vid frame r h).1] at hasp
        · exact (sceneRecords_ne_nil_iff vid frame).mp (List.ne_nil_of_mem h)
        · simp [(mem_audioRecords vid frame r h).1] at hasp
        · simp [(mem_textRecords vid frame r h).1] at hasp
        · simp [(mem_actionRecords vid frame r h).1] at hasp
      · intro hc
        obtain ⟨r, hr⟩ := List.exists_mem_of_ne_nil _
          ((sceneRecords_ne_nil_iff vid frame).mpr hc)
        exact ⟨r, (hsplit vid frame r).mpr (Or.inr (Or.inr (Or.inl hr))),
          (mem_sceneRecords vid frame r hr).1⟩
    · constructor
      · rintro ⟨r, hr, hasp⟩
        rcases (hsplit vid frame r).mp hr with h | h | h | h | h | h
        · simp [(mem_peopleRecords vid frame r h).1] at hasp
        · simp [(mem_objectRecords vid frame r h).1] at hasp
        · simp [(mem_sceneRecords vid frame r h).1] at hasp
        · exact (audioRecords_ne_nil_iff vid frame).mp (List.ne_nil_of_mem h)
        · simp [(mem_textRecords vid frame r h).1] at hasp
        · simp [(mem_actionRecords vid frame r h).1] at hasp
      · intro hc
        obtain ⟨r, hr⟩ := List.exists_mem_of_ne_nil _
          ((audioRecords_ne_nil_iff vid frame).mpr hc)
        exact ⟨r,
          (hsplit vid frame r).mpr (Or.inr (Or.inr (Or.inr (Or.inl hr)))),
          (mem_audioRecords vid frame r hr).1⟩
    · constructor
      · rintro ⟨r, hr, hasp⟩
        rcases (hsplit vid frame r).mp hr with h | h | h | h | h | h
        · simp [(mem_peopleRecords vid frame r h).1] at hasp
        · simp [(mem_objectRecords vid frame r h).1] at hasp
        · simp [(mem_sceneRecords vid frame r h).1] at hasp
        · simp [(mem_audioRecords vid frame r h).1] at hasp
        · exact (textRecords_ne_nil_iff vid frame).mp (List.ne_nil_of_mem h)
        · simp [(mem_actionRecords vid frame r h).1] at hasp
      · intro hc
        obtain ⟨r, hr⟩ := List.exists_mem_of_ne_nil _
          ((textRecords_ne_nil_iff vid frame).mpr hc)
        exact ⟨r,
          (hsplit vid frame r).mpr
            (Or.inr (Or.inr (Or.inr (Or.inr (Or.inl hr))))),
          (mem_textRecords vid frame r hr).1⟩
    · constructor
      · rintro ⟨r, hr, hasp⟩
        rcases (hsplit vid frame r).mp hr with h | h | h | h | h | h
        · simp [(mem_peopleRecords vid frame r h).1] at hasp
        · simp [(mem_objectRecords vid frame r h).1] at hasp
        · simp [(mem_sceneRecords vid frame r h).1] at hasp
        · simp [(mem_audioRecords vid frame r h).1] at hasp
        · simp [(mem_textRecords vid frame r h).1] at hasp
        · exact (actionRecords_ne_nil_iff vid frame).mp (List.ne_nil_of_mem h)
      · intro hc
        obtain ⟨r, hr⟩ := List.exists_mem_of_ne_nil _
          ((actionRecords_ne_nil_iff vid frame).mpr hc)
        exact ⟨r,
          (hsplit vid frame r).mpr
            (Or.inr (Or.inr (Or.inr (Or.inr (Or.inr hr))))),
          (mem_actionRecords vid frame r hr).1⟩
  · intro vid ts a ha
    simp [extractAspectDescriptions, extractFrameRecords, peopleRecords,
      objectRecords, sceneRecords, audioRecords, textRecords, actionRecords,
      mkAspectRecord, ha]

/-- Counterexample to C5 as stated: a frame observation whose scene object
is present but has no populated field — a category that is present but empty
— still yields a record, with the placeholder content
`"At 00:05: Scene - "`; the claim says a record is produced only for
categories that are present *and non-empty* and that placeholder content is
never emitted. -/
theorem extractAspectDescriptions_scene_placeholder :
    extractAspectDescriptions "vid1" [{ timestamp := "00:05", scene := some {} }] =
      [{ videoId := "vid1", timestamp := "00:05", timestampSeconds := some 5,
         aspectType := .scene, content := "At 00:05: Scene - " }] := by
  decide

/-- Witness for C5 (amended) at a concrete action-only frame. -/
theorem extractAspectDescriptions_category_presence_witness :
    extractAspectDescriptions "v1"
        [{ timestamp := "00:07", actionDescription := some "waves goodbye" }] =
      [{ videoId := "v1", timestamp := "00:07", timestampSeconds := some 7,
         aspectType := .action, content := "At 00:07: waves goodbye" }] := by
  have h := extractAspectDescriptions_category_presence.2.2 "v1" "00:07"
    "waves goodbye" (by decide)
  rw [h]
  decide

/-- C6: when a sourceUri is already indexed, both indexing paths reject the
attempt with a Conflict error before any write occurs: the returned store is
exactly the input store, so the original video record and its aspect records
are unchanged and nothing is merged. -/
theorem index_conflict_rejected :
    ∀ (st : Store) (ext : IndexExt) (sourceUri title : String)
      (analysis : VideoAnalysisResult)
      (frameDescriptions : List FrameDescription)
      (advAnalysis : AdvancedVideoAnalysisResult) (duration : Option Nat),
      isVideoIndexed st sourceUri = true →
      indexVideoAnalysis st ext sourceUri title analysis frameDescriptions
          duration = (.error .conflict, st) ∧
      indexAdvancedVideoAnalysis st ext sourceUri title advAnalysis duration =
        (.error .conflict, st) := by
  intro st ext sourceUri title analysis fds adv dur h
  constructor
  · simp [indexVideoAnalysis, h]
  · simp [indexAdvancedVideoAnalysis, h]

/-- Witness for C6: a concrete store already holding sourceUri `"src0"`
rejects a second indexing attempt for `"src0"` and is returned unchanged. -/
theorem index_conflict_rejected_witness :
    indexVideoAnalysis
        { videos := some [{ id := "v0", sourceUri := "src0", title := "T",
                            fullAnalysis := "a", confidence := "High",
                            indexedAt := "t0", frameCount := 1 }],
          frames := none, enhancedFrames := none }
        { videoId := "new", freshId := fun _ => "f",
          embedBatch := fun _ => [], now := "t1" }
        "src0" "T2" { analysis := "a2", confidence := "Low" }
        [{ timestamp := "00:00", description := "d" }] none =
      (.error .conflict,
       { videos := some [{ id := "v0", sourceUri := "src0", title := "T",
                           fullAnalysis := "a", confidence := "High",
                           indexedAt := "t0", frameCount := 1 }],
         frames := none, enhancedFrames := none }) :=
  (index_conflict_rejected
    { videos := some [{ id := "v0", sourceUri := "src0", title := "T",
                        fullAnalysis := "a", confidence := "High",
                        indexedAt := "t0", frameCount := 1 }],
      frames := none, enhancedFrames := none }
    { videoId := "new", freshId := fun _ => "f",
      embedBatch := fun _ => [], now := "t1" }
    "src0" "T2" { analysis := "a2", confidence := "Low" }
    [{ timestamp := "00:00", description := "d" }]
    { summary := "s", frames := [{ timestamp := "00:00" }],
      confidence := "High" }
    none (by decide)).1

/-- C7: deleting a video removes every stored record belonging to it across
all record kinds — querying the legacy frames, the enhanced frames, or the
video registry for that videoId afterwards returns empty — and removes only
those records: every record of a different video survives. -/
theorem deleteVideo_removes_all_records :
    ∀ (st : Store) (videoId : String),
      getVideoFrames (deleteVideo st videoId) videoId = [] ∧
      getEnhancedVideoFrames (deleteVideo st videoId) videoId none = [] ∧
      getVideo (deleteVideo st videoId) videoId = none ∧
      (∀ f : FrameRecord, f ∈ (deleteVideo st videoId).frames.getD [] ↔
        f ∈ st.frames.getD [] ∧ f.videoId ≠ videoId) ∧
      (∀ f : EnhancedFrameRecord,
        f ∈ (deleteVideo st videoId).enhancedFrames.getD [] ↔
          f ∈ st.enhancedFrames.getD [] ∧ f.videoId ≠ videoId) ∧
      (∀ v : VideoRecord, v ∈ (deleteVideo st videoId).videos.getD [] ↔
        v ∈ st.videos.getD [] ∧ v.id ≠ videoId) := by
  intro st videoId
  refine ⟨?_, ?_, ?_, ?_, ?_, ?_⟩
  · rcases hf : st.frames with _ | fs <;>
      simp [getVideoFrames, deleteVideo, hf, jsSortByKey, List.filter_filter]
  · rcases hf : st.enhancedFrames with _ | fs <;>
      simp [getEnhancedVideoFrames, deleteVideo, hf, jsSortByKey,
        List.filter_filter]
  · rcases hf : st.videos with _ | vs <;>
      simp [getVideo, deleteVideo, hf, List.find?_eq_none]
  · intro f
    rcases hf : st.frames with _ | fs <;>
      simp [deleteVideo, hf, List.mem_filter]
  · intro f
    rcases hf : st.enhancedFrames with _ | fs <;>
      simp [deleteVideo, hf, List.mem_filter]
  · intro v
    rcases hf : st.videos with _ | vs <;>
      simp [deleteVideo, hf, List.mem_filter]

/-- C8: the where-clause of the enhanced vector search means exactly: a
(non-empty) videoId, when present, is an equality filter; aspectTypes, when
present and non-empty, is an OR over aspect-type equality; both are ANDed
when both are present; and an absent filter (or an empty aspectTypes list)
restricts nothing — absence never means match-none.  Moreover the search
over an existing table is exactly: filter by this predicate, rank by
distance, truncate to the limit. -/
theorem enhancedVectorSearch_filter_semantics :
    (∀ (videoId : Option String) (aspectTypes : Option (List AspectType))
       (r : EnhancedFrameRecord),
      (∀ v, videoId = some v → v ≠ "") →
      (enhancedSearchPred videoId aspectTypes r = true ↔
        ((∀ v, videoId = some v → r.videoId = v) ∧
         (∀ ts, aspectTypes = some ts → ts ≠ [] → r.aspectType ∈ ts)))) ∧
    (∀ (st : Store) (rows : List EnhancedFrameRecord)
       (dist : EnhancedFrameRecord → Rat) (videoId : Option String)
       (aspectTypes : Option (List AspectType)) (limit : Nat),
      st.enhancedFrames = some rows →
      enhancedVectorSearch st dist videoId aspectTypes limit =
        ((rankByDistance dist
            (rows.filter (enhancedSearchPred videoId aspectTypes))).take
              limit).map fun r =>
          { toEnhancedFrameRecord := r, _distance := some (dist r) }) := by
  constructor
  · intro videoId aspectTypes r hv
    rcases videoId with _ | v <;> rcases aspectTypes with _ | ts
    · simp [enhancedSearchPred]
    · rcases ts with _ | ⟨t, ts'⟩ <;> simp [enhancedSearchPred]
    · have hne : ¬ v = "" := hv v rfl
      simp [enhancedSearchPred, hne]
    · have hne : ¬ v = "" := hv v rfl
      rcases ts with _ | ⟨t, ts'⟩ <;> simp [enhancedSearchPred, hne]
  · intro st rows dist videoId aspectTypes limit hrows
    simp [enhancedVectorSearch, hrows]

/-- Witness for C8 at a concrete record and filters: a record matching the
videoId filter and one of two aspect types passes the predicate. -/
theorem enhancedVectorSearch_filter_semantics_witness :
    enhancedSearchPred (some "v7") (some [.people, .audio])
        { videoId := "v7", timestamp := "00:01", timestampSeconds := some 1,
          aspectType := .audio, content := "c", vector := [] } = true ↔
      ((∀ v, (some "v7" : Option String) = some v →
          ({ videoId := "v7", timestamp := "00:01",
             timestampSeconds := some 1, aspectType := .audio, content := "c",
             vector := [] } : EnhancedFrameRecord).videoId = v) ∧
       (∀ ts, (some [AspectType.people, .audio] :
            Option (List AspectType)) = some ts → ts ≠ [] →
          ({ videoId := "v7", timestamp := "00:01",
             timestampSeconds := some 1, aspectType := .audio, content := "c",
             vector := [] } : EnhancedFrameRecord).aspectType ∈ ts)) :=
  enhancedVectorSearch_filter_semantics.1 (some "v7") (some [.people, .audio])
    { videoId := "v7", timestamp := "00:01", timestampSeconds := some 1,
      aspectType := .audio, content := "c", vector := [] }
    (by simp)

/-- C1: in `advancedChat`, when the aspect-filtered search returns zero
results the engine retries the search with the same videoId and no aspect
filter (the call trace begins with exactly those two enhanced-search calls);
if the retry is also empty it falls back to the legacy frame search; and if
that is also empty it returns the fixed "no relevant content" answer with an
empty sources list and the trace contains no text-generation call at all. -/
theorem advancedChat_cascading_fallback :
    ∀ (env : ChatEnv) (videoId query : String) (topK : Option Nat)
      (video : VideoRecord),
      getVideo env.store videoId = some video →
      enhancedVectorSearch env.store (env.enhancedDist (env.embed query))
          (some videoId) (some (classifyQuery query).aspects)
          (jsOrDefault topK (env.defaultTopK * 2)) = [] →
      ((∀ resp trace,
          advancedChat env videoId query topK = .ok (resp, trace) →
          trace.take 2 =
            [ChatEvent.enhancedSearchCall (some videoId)
               (some (classifyQuery query).aspects)
               (jsOrDefault topK (env.defaultTopK * 2)),
             ChatEvent.enhancedSearchCall (some videoId) none
               (jsOrDefault topK (env.defaultTopK * 2))]) ∧
       (enhancedVectorSearch env.store (env.enhancedDist (env.embed query))
            (some videoId) none (jsOrDefault topK (env.defaultTopK * 2)) = [] →
        (∀ resp trace,
          advancedChat env videoId query topK = .ok (resp, trace) →
          trace.take 3 =
            [ChatEvent.enhancedSearchCall (some videoId)
               (some (classifyQuery query).aspects)
               (jsOrDefault topK (env.defaultTopK * 2)),
             ChatEvent.enhancedSearchCall (some videoId) none
               (jsOrDefault topK (env.defaultTopK * 2)),
             ChatEvent.legacySearchCall (some videoId)
               (jsOrDefault topK (env.defaultTopK * 2))]) ∧
        (vectorSearch env.store (env.frameDist (env.embed query))
            (some videoId) (jsOrDefault topK (env.defaultTopK * 2)) = [] →
          advancedChat env videoId query topK =
            .ok ({ answer := noContentAnswer, sources := [],
                   tokenUsage := none },
                 [ChatEvent.enhancedSearchCall (some videoId)
                    (some (classifyQuery query).aspects)
                    (jsOrDefault topK (env.defaultTopK * 2)),
                  ChatEvent.enhancedSearchCall (some videoId) none
                    (jsOrDefault topK (env.defaultTopK * 2)),
                  ChatEvent.legacySearchCall (some videoId)
                    (jsOrDefault topK (env.defaultTopK * 2))]) ∧
          ∀ resp trace,
            advancedChat env videoId query topK = .ok (resp, trace) →
            synthesisCount trace = 0))) := by
  intro env videoId query topK video hv h1
  refine ⟨?_, ?_⟩
  · intro resp trace heq
    by_cases h2 : enhancedVectorSearch env.store
        (env.enhancedDist (env.embed query)) (some videoId) none
        (jsOrDefault topK (env.defaultTopK * 2)) = []
    · by_cases h3 : vectorSearch env.store (env.frameDist (env.embed query))
          (some videoId) (jsOrDefault topK (env.defaultTopK * 2)) = []
      · simp [advancedChat, hv, h1, h2, h3] at heq
        simp [← heq.2]
      · simp [advancedChat, hv, h1, h2, h3] at heq
        simp [← heq.2]
    · simp [advancedChat, hv, h1, h2] at heq
      simp [← heq.2]
  · intro h2
    refine ⟨?_, ?_⟩
    · intro resp trace heq
      by_cases h3 : vectorSearch env.store (env.frameDist (env.embed query))
          (some videoId) (jsOrDefault topK (env.defaultTopK * 2)) = []
      · simp [advancedChat, hv, h1, h2, h3] at heq
        simp [← heq.2]
      · simp [advancedChat, hv, h1, h2, h3] at heq
        simp [← heq.2]
    · intro h3
      refine ⟨?_, ?_⟩
      · simp [advancedChat, hv, h1, h2, h3]
      · intro resp trace heq
        simp [advancedChat, hv, h1, h2, h3] at heq
        simp [← heq.2, synthesisCount]

/-- Witness for C1 at a concrete environment whose enhanced and legacy
tables are absent: every search is empty, so `advancedChat` performs the
full cascade and returns the fixed answer with no synthesis call. -/
theorem advancedChat_cascading_fallback_witness :
    advancedChat
        { defaultTopK := 5,
          store := { videos := some [{ id := "v9", sourceUri := "s",
                                       title := "T", fullAnalysis := "a",
                                       confidence := "High", indexedAt := "t",
                                       frameCount := 0 }],
                     frames := none, enhancedFrames := none },
          embed := fun _ => [],
          enhancedDist := fun _ _ => 0,
          frameDist := fun _ _ => 0,
          generate := fun _ _ _ => { text := "x" },
          toFixed := fun _ _ => "" }
        "v9" "who" none =
      .ok ({ answer := noContentAnswer, sources := [], tokenUsage := none },
           [ChatEvent.enhancedSearchCall (some "v9")
              (some (classifyQuery "who").aspects) 10,
            ChatEvent.enhancedSearchCall (some "v9") none 10,
            ChatEvent.legacySearchCall (some "v9") 10]) :=
  (((advancedChat_cascading_fallback
      { defaultTopK := 5,
        store := { videos := some [{ id := "v9", sourceUri := "s",
                                     title := "T", fullAnalysis := "a",
                                     confidence := "High", indexedAt := "t",
                                     frameCount := 0 }],
                   frames := none, enhancedFrames := none },
        embed := fun _ => [],
        enhancedDist := fun _ _ => 0,
        frameDist := fun _ _ => 0,
        generate := fun _ _ _ => { text := "x" },
        toFixed := fun _ _ => "" }
      "v9" "who" none
      { id := "v9", sourceUri := "s", title := "T", fullAnalysis := "a",
        confidence := "High", indexedAt := "t", frameCount := 0 }
      rfl rfl).2 rfl).2 rfl).1

/-- C9 (amended): every source returned by the chat pipelines is the
retrieved search result mapped through the source constructors, and the
attached relevanceScore is 1 minus the result's cosine distance whenever the
result carries a present, non-zero distance; when the distance is absent or
exactly 0 (a falsy JavaScript number, as for an exact match) the source
carries no relevanceScore at all. -/
theorem chat_sources_relevanceScore :
    (∀ f : EnhancedFrameSearchResult,
      (∃ d, f._distance = some d ∧ d ≠ 0 ∧
        (enhancedSource f).relevanceScore = some (1 - d)) ∨
      ((f._distance = none ∨ f._distance = some 0) ∧
        (enhancedSource f).relevanceScore = none)) ∧
    (∀ f : FrameSearchResult,
      (∃ d, f._distance = some d ∧ d ≠ 0 ∧
        (legacySource f).relevanceScore = some (1 - d)) ∨
      ((f._distance = none ∨ f._distance = some 0) ∧
        (legacySource f).relevanceScore = none)) ∧
    (∀ (env : ChatEnv) (videoId query : String) (topK : Option Nat)
       (video : VideoRecord) (resp : RAGResponse) (trace : List ChatEvent),
      getVideo env.store videoId = some video →
      enhancedVectorSearch env.store (env.enhancedDist (env.embed query))
          (some videoId) (some (classifyQuery query).aspects)
          (jsOrDefault topK (env.defaultTopK * 2)) ≠ [] →
      advancedChat env videoId query topK = .ok (resp, trace) →
      resp.sources =
        (enhancedVectorSearch env.store (env.enhancedDist (env.embed query))
          (some videoId) (some (classifyQuery query).aspects)
          (jsOrDefault topK (env.defaultTopK * 2))).map enhancedSource) ∧
    (∀ (env : ChatEnv) (videoId query : String) (topK : Option Nat)
       (video : VideoRecord) (resp : RAGResponse) (trace : List ChatEvent),
      getVideo env.store videoId = some video →
      chat env videoId query topK = .ok (resp, trace) →
      resp.sources =
        (vectorSearch env.store (env.frameDist (env.embed query))
          (some videoId) (jsOrDefault topK env.defaultTopK)).map
            legacySource) := by
  refine ⟨?_, ?_, ?_, ?_⟩
  · intro f
    rcases hd : f._distance with _ | d
    · exact Or.inr ⟨Or.inl rfl, by simp [enhancedSource, relevanceScoreOf, hd]⟩
    · by_cases h0 : d = 0
      · exact Or.inr ⟨Or.inr (by rw [h0]),
          by simp [enhancedSource, relevanceScoreOf, hd, h0]⟩
      · exact Or.inl ⟨d, rfl, h0,
          by simp [enhancedSource, relevanceScoreOf, hd, h0]⟩
  · intro f
    rcases hd : f._distance with _ | d
    · exact Or.inr ⟨Or.inl rfl, by simp [legacySource, relevanceScoreOf, hd]⟩
    · by_cases h0 : d = 0
      · exact Or.inr ⟨Or.inr (by rw [h0]),
          by simp [legacySource, relevanceScoreOf, hd, h0]⟩
      · exact Or.inl ⟨d, rfl, h0,
          by simp [legacySource, relevanceScoreOf, hd, h0]⟩
  · intro env videoId query topK video resp trace hv hne heq
    have hl : ¬ ((enhancedVectorSearch env.store
        (env.enhancedDist (env.embed query)) (some videoId)
        (some (classifyQuery query).aspects)
        (jsOrDefault topK (env.defaultTopK * 2))).length = 0) := by
      simpa [List.length_eq_zero] using hne
    simp [advancedChat, hv, hl] at heq
    simp [← heq.1]
  · intro env videoId query topK video resp trace hv heq
    by_cases hL : (vectorSearch env.store (env.frameDist (env.embed query))
        (some videoId) (jsOrDefault topK env.defaultTopK)).length = 0
    · have hnil := List.length_eq_zero.mp hL
      simp [chat, hv, hL] at heq
      simp [← heq.1, hnil]
    · simp [chat, hv, hL] at heq
      simp [← heq.1]

/-- Counterexample to C9 as stated: in this concrete environment the
enhanced search returns one result with cosine distance exactly 0 (an exact
match), and the source `advancedChat` returns for it carries no
relevanceScore (`none`) — the claim requires every returned source to carry
the score 1 − distance (here `some 1`).  The `_distance ? 1 - _distance :
undefined` expression treats the number 0 as falsy. -/
theorem advancedChat_source_without_relevanceScore :
    ((advancedChat
        { defaultTopK := 5,
          store := { videos := some [{ id := "v", sourceUri := "s",
                                       title := "T", fullAnalysis := "a",
                                       confidence := "High", indexedAt := "t",
                                       frameCount := 1 }],
                     frames := none,
                     enhancedFrames := some
                       [{ videoId := "v", timestamp := "00:01",
                          timestampSeconds := some 1, aspectType := .people,
                          content := "a person", vector := [] }] },
          embed := fun _ => [],
          enhancedDist := fun _ _ => 0,
          frameDist := fun _ _ => 0,
          generate := fun _ _ _ => { text := "answer" },
          toFixed := fun _ _ => "" }
        "v" "who" none).toOption.map fun p => p.1.sources) =
      some [{ timestamp := "00:01", description := "a person",
              aspectType := some .people, relevanceScore := none }] := by
  rfl

/-- Witness for C9 (amended): the chat-pipeline conjunct applied at a
concrete environment with no legacy frames table — the empty search maps to
the empty sources list. -/
theorem chat_sources_relevanceScore_witness :
    ({ answer := noContentAnswer, sources := [], tokenUsage := none } :
        RAGResponse).sources =
      (vectorSearch
          ({ defaultTopK := 5,
             store := { videos := some [{ id := "v9", sourceUri := "s",
                                          title := "T", fullAnalysis := "a",
                                          confidence := "High",
                                          indexedAt := "t", frameCount := 0 }],
                        frames := none, enhancedFrames := none },
             embed := fun _ => [],
             enhancedDist := fun _ _ => 0,
             frameDist := fun _ _ => 0,
             generate := fun _ _ _ => { text := "x" },
             toFixed := fun _ _ => "" } : ChatEnv).store
          (ChatEnv.frameDist
            { defaultTopK := 5,
              store := { videos := some [{ id := "v9", sourceUri := "s",
                                           title := "T", fullAnalysis := "a",
                                           confidence := "High",
                                           indexedAt := "t", frameCount := 0 }],
                         frames := none, enhancedFrames := none },
              embed := fun _ => [],
              enhancedDist := fun _ _ => 0,
              frameDist := fun _ _ => 0,
              generate := fun _ _ _ => { text := "x" },
              toFixed := fun _ _ => "" }
            (ChatEnv.embed
              { defaultTopK := 5,
                store := { videos := some [{ id := "v9", sourceUri := "s",
                                             title := "T", fullAnalysis := "a",
                                             confidence := "High",
                                             indexedAt := "t",
                                             frameCount := 0 }],
                           frames := none, enhancedFrames := none },
                embed := fun _ => [],
                enhancedDist := fun _ _ => 0,
                frameDist := fun _ _ => 0,
                generate := fun _ _ _ => { text := "x" },
                toFixed := fun _ _ => "" }
              "q"))
          (some "v9") (jsOrDefault none 5)).map legacySource :=
  chat_sources_relevanceScore.2.2.2
    { defaultTopK := 5,
      store := { videos := some [{ id := "v9", sourceUri := "s", title := "T",
                                   fullAnalysis := "a", confidence := "High",
                                   indexedAt := "t", frameCount := 0 }],
                 frames := none, enhancedFrames := none },
      embed := fun _ => [],
      enhancedDist := fun _ _ => 0,
      frameDist := fun _ _ => 0,
      generate := fun _ _ _ => { text := "x" },
      toFixed := fun _ _ => "" }
    "v9" "q" none
    { id := "v9", sourceUri := "s", title := "T", fullAnalysis := "a",
      confidence := "High", indexedAt := "t", frameCount := 0 }
    { answer := noContentAnswer, sources := [], tokenUsage := none }
    [ChatEvent.legacySearchCall (some "v9") 5]
    rfl rfl

end Deepcap
